import Mathlib

/-!
Verification of the extraction-and-filtering pipeline of the
`web-scraper-streamlit` repository (files `scraper.py`, `main.py`,
`utils.py`).  Strings are modelled as `List Char` (Python `str` is a
sequence of Unicode code points, and `len` counts them).  The
BeautifulSoup DOM is modelled as a rose tree of element and text
nodes; attribute values are modelled as plain strings.
-/

abbrev Str := List Char

/-- The set of characters matched by Python's regex `\s` (and by
`str.strip()` / `str.isspace()`): the ASCII whitespace characters plus
the Unicode whitespace code points. -/
def pyWs (c : Char) : Bool :=
  [0x9, 0xA, 0xB, 0xC, 0xD, 0x1C, 0x1D, 0x1E, 0x1F, 0x20, 0x85, 0xA0,
   0x1680, 0x2000, 0x2001, 0x2002, 0x2003, 0x2004, 0x2005, 0x2006, 0x2007,
   0x2008, 0x2009, 0x200A, 0x2028, 0x2029, 0x202F, 0x205F, 0x3000].contains c.toNat

/-- Python `str.strip()`: drop leading and trailing whitespace. -/
def pyStrip (s : Str) : Str :=
  ((s.dropWhile pyWs).reverse.dropWhile pyWs).reverse

/-- Python `str.lower()` (restricted to the ASCII case mapping, which is
all the pipeline's tag names, attribute keys and the test inputs use). -/
def pyLower (s : Str) : Str := s.map Char.toLower

/-- Python `str.upper()` (ASCII case mapping, see `pyLower`). -/
def pyUpper (s : Str) : Str := s.map Char.toUpper

/-- Python `re.sub(r"\s+", " ", s)`: replace every maximal run of
whitespace characters by a single space. -/
def collapseWs : Str → Str
  | [] => []
  | c :: rest =>
    if pyWs c then
      match rest with
      | [] => [' ']
      | d :: _ => if pyWs d then collapseWs rest else ' ' :: collapseWs rest
    else c :: collapseWs rest

/-- `clean_text` (scraper.py lines 100-106): collapse whitespace runs to a
single space, then strip. -/
def cleanText (s : Str) : Str := pyStrip (collapseWs s)

/-- Python `needle in hay` on strings (used via `List.IsInfix` on the
character lists); boolean version of `str.startswith`. -/
def isPrefixB : Str → Str → Bool
  | [], _ => true
  | _ :: _, [] => false
  | a :: as, b :: bs => a = b && isPrefixB as bs

/-- Boolean version of Python `str.endswith`. -/
def isSuffixB (n hay : Str) : Bool := isPrefixB n.reverse hay.reverse

/-- Boolean version of Python `needle in hay` (substring test). -/
def isInfixB (n : Str) : Str → Bool
  | [] => n.isEmpty
  | c :: t => isPrefixB n (c :: t) || isInfixB n t

/-- Python `str.lstrip("/")`: drop all leading slash characters. -/
def lstripSlash (s : Str) : Str := s.dropWhile (fun c => c = '/')

/-- A node of the parsed document tree: either a text node or an element
with a tag name, an attribute list and children.  (BeautifulSoup
multi-valued attributes such as `class`/`rel` are modelled as the raw
attribute string.) -/
inductive Node where
  | text (s : Str)
  | elem (tag : Str) (attrs : List (Str × Str)) (children : List Node)

/-- Tag name of a node (`element.name`); text nodes get the empty name. -/
def nodeTag : Node → Str
  | .text _ => []
  | .elem t _ _ => t

/-- Attribute list of a node; text nodes have none. -/
def nodeAttrs : Node → List (Str × Str)
  | .text _ => []
  | .elem _ a _ => a

/-- Children of a node. -/
def nodeChildren : Node → List Node
  | .text _ => []
  | .elem _ _ cs => cs

/-- `element.get(key)` (attribute lookup, `None` when absent). -/
def attrOpt (e : Node) (k : Str) : Option Str := (nodeAttrs e).lookup k

/-- `element.get(key, default)` for a string default. -/
def attrD (e : Node) (k d : Str) : Str := (attrOpt e k).getD d

mutual
/-- `element.get_text()`: concatenation of all text-node contents of the
subtree, in document order. -/
def getText : Node → Str
  | .text s => s
  | .elem _ _ cs => getTextList cs
def getTextList : List Node → Str
  | [] => []
  | n :: ns => getText n ++ getTextList ns
end

mutual
/-- All nodes of the subtrees of a node list, in document (preorder)
order, each node before its descendants. -/
def allNodesList : List Node → List Node
  | [] => []
  | n :: ns => allNodes n ++ allNodesList ns
def allNodes : Node → List Node
  | .text s => [.text s]
  | .elem t a cs => .elem t a cs :: allNodesList cs
end

/-- The descendants of a document root, in document order (the node set
searched by BeautifulSoup `find_all` / `find` on the soup object). -/
def descendants (soup : Node) : List Node := allNodesList (nodeChildren soup)

/-- `soup.find_all(tag)`: every descendant element with the given tag
name, in document order. -/
def findAll (soup : Node) (tag : Str) : List Node :=
  (descendants soup).filter (fun n => nodeTag n = tag)

/-- `soup.find(id=idName)`: the first descendant (document order) whose
`id` attribute equals the given string, if any. -/
def findById (soup : Node) (idName : Str) : Option Node :=
  (descendants soup).find? (fun n => attrOpt n "id".data == some idName)

/-- Whitespace-separated words of a string (how BeautifulSoup interprets
a multi-valued `class` attribute). -/
def wsSplitAux : Str → Str → List Str
  | [], acc => if acc.isEmpty then [] else [acc.reverse]
  | c :: rest, acc =>
    if pyWs c then
      if acc.isEmpty then wsSplitAux rest [] else acc.reverse :: wsSplitAux rest []
    else wsSplitAux rest (c :: acc)

def wsSplit (s : Str) : List Str := wsSplitAux s []

/-- `soup.find_all(class_=cn)`: descendants whose `class` attribute
contains `cn` as one of its whitespace-separated words. -/
def findAllClass (soup : Node) (cn : Str) : List Node :=
  (descendants soup).filter (fun n =>
    match attrOpt n "class".data with
    | some v => (wsSplit v).contains cn
    | none => false)

/-- `filter_by_tags` (scraper.py lines 109-114): for each listed tag,
collect all matches of `tag.strip()`, concatenated in the caller's
order. -/
def filterByTags (soup : Node) (tags : List Str) : List Node :=
  match tags with
  | [] => []
  | t :: rest => findAll soup (pyStrip t) ++ filterByTags soup rest

/-- `filter_by_class_id` (scraper.py lines 117-131): class matches first,
then for each listed id the first element with that id (skipped when
none is found). -/
def filterByClassId (soup : Node) (classes ids : List Str) : List Node :=
  (match classes with
   | [] => []
   | _ => classes.flatMap (fun cn => findAllClass soup (pyStrip cn)))
  ++ ids.filterMap (fun i => findById soup (pyStrip i))

/-- One pass of the inner loop of `filter_by_text_content` (scraper.py
lines 141-157): scan the search terms in order; a term that is empty
after strip+lower is skipped; the first remaining term that matches the
(lowercased) text under the match mode keeps the element (`break`). -/
def keepElem (mode : Str) (text : Str) : List Str → Bool
  | [] => false
  | t :: ts =>
    let term := pyLower (pyStrip t)
    if term.isEmpty then keepElem mode text ts
    else if mode = "contains".data && isInfixB term text then true
    else if mode = "starts_with".data && isPrefixB term text then true
    else if mode = "ends_with".data && isSuffixB term text then true
    else if mode = "exact".data && term = text then true
    else keepElem mode text ts

/-- `filter_by_text_content` (scraper.py lines 134-159): keep each
element whose lowercased `get_text()` is matched by some search term. -/
def filterByTextContent (elements : List Node) (searchTerms : List Str)
    (matchType : Str) : List Node :=
  match elements with
  | [] => []
  | e :: rest =>
    if keepElem matchType (pyLower (getText e)) searchTerms then
      e :: filterByTextContent rest searchTerms matchType
    else filterByTextContent rest searchTerms matchType

/-- The record built for one element by `extract_text_content`
(scraper.py lines 169-204).  Python stores a dict whose keys depend on
the tag; an absent dict key is `none` here.  The `disabled`/`required`
entries hold `element.get(attr, False)`, i.e. either the attribute
string or Python `False`; that value is modelled as an inner
`Option Str` (`none` = `False`). -/
structure ElementRecord where
  text : Str
  tag : Str
  length : Nat
  id : Str
  href : Option Str := none
  target : Option Str := none
  title : Option Str := none
  rel : Option Str := none
  type : Option Str := none
  onclick : Option Str := none
  form : Option Str := none
  disabled : Option (Option Str) := none
  name : Option Str := none
  placeholder : Option Str := none
  value : Option Str := none
  required : Option (Option Str) := none
  src : Option Str := none
  alt : Option Str := none
  action : Option Str := none
  method : Option Str := none
  deriving DecidableEq

/-- The record `extract_text_content` builds for one element: the base
fields plus the tag-specific attribute reads with their defaults. -/
def mkRecord (e : Node) : ElementRecord :=
  let text := cleanText (getText e)
  let base : ElementRecord :=
    { text := text, tag := nodeTag e, length := text.length,
      id := attrD e "id".data [] }
  if nodeTag e = "a".data then
    { base with href := some (attrD e "href".data []),
                target := some (attrD e "target".data []),
                title := some (attrD e "title".data []),
                rel := some (attrD e "rel".data []) }
  else if nodeTag e = "button".data then
    { base with type := some (attrD e "type".data "button".data),
                onclick := some (attrD e "onclick".data []),
                form := some (attrD e "form".data []),
                disabled := some (attrOpt e "disabled".data) }
  else if nodeTag e = "input".data then
    { base with type := some (attrD e "type".data "text".data),
                name := some (attrD e "name".data []),
                placeholder := some (attrD e "placeholder".data []),
                value := some (attrD e "value".data []),
                required := some (attrOpt e "required".data) }
  else if nodeTag e = "img".data then
    { base with src := some (attrD e "src".data []),
                alt := some (attrD e "alt".data []) }
  else if nodeTag e = "form".data then
    { base with action := some (attrD e "action".data []),
                method := some (attrD e "method".data "get".data) }
  else base

/-- `extract_text_content` (scraper.py lines 162-206): clean each
element's text, drop the element when the cleaned length is below
`min_length`, otherwise append its record. -/
def extractTextContent (elements : List Node) (minLength : Nat) :
    List ElementRecord :=
  match elements with
  | [] => []
  | e :: rest =>
    if minLength ≤ (cleanText (getText e)).length then
      mkRecord e :: extractTextContent rest minLength
    else extractTextContent rest minLength

/-- The fixed fallback tag list of the scrape flow (main.py lines
585-609). -/
def defaultTags : List Str :=
  ["p".data, "h1".data, "h2".data, "h3".data, "h4".data, "h5".data,
   "h6".data, "div".data, "span".data, "article".data, "section".data,
   "a".data, "button".data, "input".data, "form".data, "li".data,
   "td".data, "th".data, "label".data, "nav".data, "header".data,
   "footer".data, "main".data]

/-- Tag/id selection of the scrape flow (main.py lines 571-610): tag
matches first, then id matches; if the combined list is empty, fall
back to the default tag list.  (An empty filter string contributes an
empty tag/id list, so the two `if tag_filter` / `if id_filter` guards
are captured by the lists themselves.) -/
def selectElements (soup : Node) (tags ids : List Str) : List Node :=
  let els := filterByTags soup tags ++ filterByClassId soup [] ids
  if els.isEmpty then filterByTags soup defaultTags else els

/-- Characters allowed in a URL scheme after the leading letter
(`urllib.parse` scheme characters). -/
def schemeChar (c : Char) : Bool :=
  c.isAlpha || c.isDigit || c = '+' || c = '-' || c = '.'

/-- Split off the scheme of a URL the way `urllib.parse.urlparse` does:
the part before the first `:` when it is a wellformed scheme (leading
letter, scheme characters), lowercased; otherwise no scheme. -/
def splitScheme (url : Str) : Option (Str × Str) :=
  let pre := url.takeWhile (fun c => c ≠ ':')
  if pre.length < url.length && !pre.isEmpty &&
     (match pre with
      | c :: rest => c.isAlpha && rest.all schemeChar
      | [] => false) then
    some (pyLower pre, url.drop (pre.length + 1))
  else none

/-- `urlparse(url).scheme`. -/
def urlScheme (url : Str) : Str :=
  match splitScheme url with
  | some (s, _) => s
  | none => []

/-- `urlparse(url).netloc`: present only after a `//`, up to the next
`/`, `?` or `#`. -/
def urlNetloc (url : Str) : Str :=
  let rest := match splitScheme url with
              | some (_, r) => r
              | none => url
  if isPrefixB "//".data rest then
    (rest.drop 2).takeWhile (fun c => c ≠ '/' && c ≠ '?' && c ≠ '#')
  else []

/-- `f"{urlparse(url).scheme}://{urlparse(url).netloc}"`, the `base_url`
of the renderers' link resolution. -/
def baseUrl (url : Str) : Str :=
  urlScheme url ++ "://".data ++ urlNetloc url

/-- Link resolution of the text renderer (utils.py lines 150-168),
transcribed branch by branch. -/
def resolveHrefText (url href : Str) : Str :=
  if isPrefixB "/".data href then baseUrl url ++ href
  else if isPrefixB "#".data href then url ++ href
  else if !(isPrefixB "http://".data href || isPrefixB "https://".data href ||
            isPrefixB "mailto:".data href || isPrefixB "tel:".data href) then
    baseUrl url ++ "/".data ++ lstripSlash href
  else href

/-- Link resolution of the markdown renderer (utils.py lines 307-325). -/
def resolveHrefMd (url href : Str) : Str :=
  if isPrefixB "/".data href then baseUrl url ++ href
  else if isPrefixB "#".data href then url ++ href
  else if !(isPrefixB "http://".data href || isPrefixB "https://".data href ||
            isPrefixB "mailto:".data href || isPrefixB "tel:".data href) then
    baseUrl url ++ "/".data ++ lstripSlash href
  else href

/-- Link resolution of the markdown summary renderer in the main app
(main.py lines 321-329). -/
def resolveHrefMain (url href : Str) : Str :=
  if isPrefixB "/".data href then baseUrl url ++ href
  else if isPrefixB "#".data href then url ++ href
  else if !(isPrefixB "http://".data href || isPrefixB "https://".data href ||
            isPrefixB "mailto:".data href || isPrefixB "tel:".data href) then
    baseUrl url ++ "/".data ++ lstripSlash href
  else href

/-- Modelled from the spec (section 4.4 URL-resolution rule), stated as
the four cases of the claim: leading `/` gets the scheme-and-host
prefix; leading `#` is appended to the full source URL; an already
absolute href (`http://`, `https://`, `mailto:`, `tel:`) is unchanged;
anything else gets `scheme://host/` after stripping leading slashes. -/
def resolveHrefSpec (url href : Str) : Str :=
  if isPrefixB "/".data href then baseUrl url ++ href
  else if isPrefixB "#".data href then url ++ href
  else if isPrefixB "http://".data href || isPrefixB "https://".data href ||
          isPrefixB "mailto:".data href || isPrefixB "tel:".data href then href
  else baseUrl url ++ "/".data ++ lstripSlash href

/-- Insertion-ordered dict update used by the renderers' grouping loop
(`element_groups`): a new tag key is appended at the end, an existing
key gets the record appended to its list. -/
def addToGroups (groups : List (Str × List ElementRecord)) (tag : Str)
    (r : ElementRecord) : List (Str × List ElementRecord) :=
  match groups with
  | [] => [(tag, [r])]
  | (t, rs) :: rest =>
    if t = tag then (t, rs ++ [r]) :: rest
    else (t, rs) :: addToGroups rest tag r

/-- Grouping loop of the text renderer (utils.py lines 90-95): group the
records by uppercased tag, keys in first-appearance order. -/
def groupByTagText (results : List ElementRecord) :
    List (Str × List ElementRecord) :=
  results.foldl (fun g r => addToGroups g (pyUpper r.tag) r) []

/-- Grouping loop of the markdown renderer (utils.py lines 233-238). -/
def groupByTagMd (results : List ElementRecord) :
    List (Str × List ElementRecord) :=
  results.foldl (fun g r => addToGroups g (pyUpper r.tag) r) []

/-- `section_order` of the text renderer (utils.py lines 98-119). -/
def sectionOrderText : List Str :=
  ["BUTTON".data, "A".data, "FORM".data, "INPUT".data, "H1".data, "H2".data,
   "H3".data, "H4".data, "H5".data, "H6".data, "P".data, "DIV".data,
   "SPAN".data, "SECTION".data, "LI".data, "LABEL".data, "NAV".data,
   "HEADER".data, "FOOTER".data, "MAIN".data]

/-- `section_order` of the markdown renderer (utils.py lines 241-262). -/
def sectionOrderMd : List Str :=
  ["BUTTON".data, "A".data, "FORM".data, "INPUT".data, "H1".data, "H2".data,
   "H3".data, "H4".data, "H5".data, "H6".data, "P".data, "DIV".data,
   "SPAN".data, "SECTION".data, "LI".data, "LABEL".data, "NAV".data,
   "HEADER".data, "FOOTER".data, "MAIN".data]

/-- The section sequence of the text renderer (utils.py lines 122-186):
the ordered sections present in the grouping, followed by the remaining
groups in first-appearance order. -/
def textSections (results : List ElementRecord) :
    List (Str × List ElementRecord) :=
  let groups := groupByTagText results
  sectionOrderText.filterMap (fun t =>
      match groups.lookup t with
      | some rs => some (t, rs)
      | none => none)
    ++ groups.filter (fun p => !(sectionOrderText.contains p.1))

/-- The section sequence of the markdown renderer (utils.py lines
265-349). -/
def mdSections (results : List ElementRecord) :
    List (Str × List ElementRecord) :=
  let groups := groupByTagMd results
  sectionOrderMd.filterMap (fun t =>
      match groups.lookup t with
      | some rs => some (t, rs)
      | none => none)
    ++ groups.filter (fun p => !(sectionOrderMd.contains p.1))

/-- Python truthiness of the record's `href` entry
(`element.get("href")`): present and non-empty. -/
def hrefTruthy (r : ElementRecord) : Bool :=
  match r.href with
  | some (_ :: _) => true
  | _ => false

/-- The records the text renderer emits a line for within one section
(utils.py lines 149-171): every record of the group (either as
`text -> href` or as plain text). -/
def renderedRecsText (_tag : Str) (group : List ElementRecord) :
    List ElementRecord :=
  group

/-- The records the markdown renderer emits lines for within one section
(utils.py lines 306-330): link records (tag `A` with truthy href), and
otherwise only records whose stripped text is non-empty. -/
def renderedRecsMd (tag : Str) (group : List ElementRecord) :
    List ElementRecord :=
  group.filter (fun r =>
    (tag = "A".data && hrefTruthy r) || !(pyStrip r.text).isEmpty)

/-- JSON values as produced by `json.dumps` on the export dict (only the
shapes the program serializes: strings, nonnegative integers, booleans,
arrays, objects with insertion-ordered keys). -/
inductive Json where
  | str (s : Str)
  | num (n : Nat)
  | bool (b : Bool)
  | arr (xs : List Json)
  | obj (kvs : List (Str × Json))

/-- Object entry for an optional string-valued dict key: present exactly
when the record carries the field. -/
def optS (k : Str) (v : Option Str) : List (Str × Json) :=
  match v with
  | none => []
  | some s => [(k, .str s)]

/-- Object entry for a dict key holding `element.get(attr, False)`:
present exactly when the record carries the field; the inner `none`
(Python `False`) serializes as JSON `false`. -/
def optB (k : Str) (v : Option (Option Str)) : List (Str × Json) :=
  match v with
  | none => []
  | some none => [(k, .bool false)]
  | some (some s) => [(k, .str s)]

/-- The key-value list of the dict built by `extract_text_content` for
one record: base keys, then the record's optional keys, in insertion
order. -/
def recordKvs (r : ElementRecord) : List (Str × Json) :=
  ("text".data, .str r.text) :: ("tag".data, .str r.tag) ::
  ("length".data, .num r.length) :: ("id".data, .str r.id) ::
  (optS "href".data r.href ++ (optS "target".data r.target ++
   (optS "title".data r.title ++ (optS "rel".data r.rel ++
   (optS "type".data r.type ++ (optS "onclick".data r.onclick ++
   (optS "form".data r.form ++ (optB "disabled".data r.disabled ++
   (optS "name".data r.name ++ (optS "placeholder".data r.placeholder ++
   (optS "value".data r.value ++ (optB "required".data r.required ++
   (optS "src".data r.src ++ (optS "alt".data r.alt ++
   (optS "action".data r.action ++ (optS "method".data r.method ++
    []))))))))))))))))

/-- The JSON object for one element record. -/
def recordToJson (r : ElementRecord) : Json := .obj (recordKvs r)

/-- The JSON object for the page-metadata dict (string keys and values,
insertion order preserved). -/
def metadataToJson (md : List (Str × Str)) : Json :=
  .obj (md.map (fun p => (p.1, .str p.2)))

/-- `json_data` of the JSON export (utils.py lines 431-437): metadata,
source URL, timestamp, element count and the literal record sequence. -/
def jsonRender (results : List ElementRecord) (url : Str)
    (metadata : List (Str × Str)) (scrapedAt : Str) : Json :=
  .obj [("metadata".data, metadataToJson metadata),
        ("url".data, .str url),
        ("scraped_at".data, .str scrapedAt),
        ("total_elements".data, .num results.length),
        ("elements".data, .arr (results.map recordToJson))]


/-- Ordered-dict lookup by key used by the decoders. -/
def lookupStr {β : Type} (k : Str) : List (Str × β) → Option β
  | [] => none
  | (p, v) :: rest => if p = k then some v else lookupStr k rest

/-- Decode an optional string-valued dict key back into the record
field: an absent key is `none`, a string is `some`. -/
def decOptS (kvs : List (Str × Json)) (k : Str) : Option (Option Str) :=
  match lookupStr k kvs with
  | none => some none
  | some (.str s) => some (some s)
  | some _ => none

/-- Decode a dict key holding string-or-`False` back into the record
field. -/
def decOptB (kvs : List (Str × Json)) (k : Str) :
    Option (Option (Option Str)) :=
  match lookupStr k kvs with
  | none => some none
  | some (.bool false) => some (some none)
  | some (.str s) => some (some (some s))
  | some _ => none

/-- Decode a required string-valued dict key. -/
def decStr (kvs : List (Str × Json)) (k : Str) : Option Str :=
  match lookupStr k kvs with
  | some (.str s) => some s
  | _ => none

/-- Decode a required number-valued dict key. -/
def decNum (kvs : List (Str × Json)) (k : Str) : Option Nat :=
  match lookupStr k kvs with
  | some (.num n) => some n
  | _ => none

/-- Decode the four base keys of a record object. -/
def decodeBase (kvs : List (Str × Json)) : Option (Str × Str × Nat × Str) :=
  match decStr kvs "text".data, decStr kvs "tag".data,
        decNum kvs "length".data, decStr kvs "id".data with
  | some text, some tag, some length, some id => some (text, tag, length, id)
  | _, _, _, _ => none

/-- Decode the first half of the optional keys of a record object. -/
def decodeOpts1 (kvs : List (Str × Json)) :
    Option (Option Str × Option Str × Option Str × Option Str × Option Str ×
      Option Str × Option Str × Option (Option Str)) :=
  match decOptS kvs "href".data, decOptS kvs "target".data,
        decOptS kvs "title".data, decOptS kvs "rel".data,
        decOptS kvs "type".data, decOptS kvs "onclick".data,
        decOptS kvs "form".data, decOptB kvs "disabled".data with
  | some href, some target, some title, some rel, some ty, some onclick,
    some form, some disabled =>
    some (href, target, title, rel, ty, onclick, form, disabled)
  | _, _, _, _, _, _, _, _ => none

/-- Decode the second half of the optional keys of a record object. -/
def decodeOpts2 (kvs : List (Str × Json)) :
    Option (Option Str × Option Str × Option Str × Option (Option Str) ×
      Option Str × Option Str × Option Str × Option Str) :=
  match decOptS kvs "name".data, decOptS kvs "placeholder".data,
        decOptS kvs "value".data, decOptB kvs "required".data,
        decOptS kvs "src".data, decOptS kvs "alt".data,
        decOptS kvs "action".data, decOptS kvs "method".data with
  | some name, some placeholder, some value, some required, some src,
    some alt, some action, some method =>
    some (name, placeholder, value, required, src, alt, action, method)
  | _, _, _, _, _, _, _, _ => none

/-- Decode one element of the `elements` array back into an
`ElementRecord`: the four base keys must be present with their types,
every optional key is read back by presence. -/
def decodeRecord (j : Json) : Option ElementRecord :=
  match j with
  | .obj kvs =>
    match decodeBase kvs, decodeOpts1 kvs, decodeOpts2 kvs with
    | some (text, tag, length, id),
      some (href, target, title, rel, ty, onclick, form, disabled),
      some (name, placeholder, value, required, src, alt, action, method) =>
      some { text := text, tag := tag, length := length, id := id,
             href := href, target := target, title := title, rel := rel,
             type := ty, onclick := onclick, form := form,
             disabled := disabled, name := name, placeholder := placeholder,
             value := value, required := required, src := src, alt := alt,
             action := action, method := method }
    | _, _, _ => none
  | _ => none

/-- Decode the `elements` array elementwise. -/
def decodeRecords : List Json → Option (List ElementRecord)
  | [] => some []
  | j :: js =>
    match decodeRecord j, decodeRecords js with
    | some r, some rs => some (r :: rs)
    | _, _ => none

/-- Decode the metadata object back into an ordered string dict. -/
def decodeMetadata : List (Str × Json) → Option (List (Str × Str))
  | [] => some []
  | (k, .str v) :: rest =>
    match decodeMetadata rest with
    | some m => some ((k, v) :: m)
    | none => none
  | _ => none

/-- Decode the whole JSON export back into
(metadata, url, scraped_at, total_elements, elements): the export
object carries exactly these five keys in insertion order (dict order
is preserved by `json.dumps`/`json.loads`), so the decoder reads them
positionally and checks the key names. -/
def decodeRender (j : Json) :
    Option (List (Str × Str) × Str × Str × Nat × List ElementRecord) :=
  match j with
  | .obj [(k1, .obj m), (k2, .str url), (k3, .str scrapedAt),
          (k4, .num n), (k5, .arr xs)] =>
    if k1 = "metadata".data && k2 = "url".data && k3 = "scraped_at".data &&
       k4 = "total_elements".data && k5 = "elements".data then
      match decodeMetadata m, decodeRecords xs with
      | some md, some els => some (md, url, scrapedAt, n, els)
      | _, _ => none
    else none
  | _ => none

/-- The outcome of the transport layer (`session.get` plus
`raise_for_status`): either the parsed document or a
`requests.exceptions.RequestException` carrying a message.  Timeouts,
connection failures, exhausted retries and non-2xx statuses all
surface as the `failure` case. -/
inductive FetchOutcome where
  | success (doc : Node)
  | failure (err : Str)

/-- The page-metadata dict built by `scrape_website` (scraper.py lines
37-92): fixed keys in the literal's insertion order, each field filled
from the first matching element and left empty otherwise. -/
def extractPageMetadata (soup : Node) : List (Str × Str) :=
  let title :=
    match (descendants soup).find? (fun n => nodeTag n = "title".data) with
    | some t => pyStrip (getText t)
    | none => []
  let lang :=
    match (descendants soup).find? (fun n => nodeTag n = "html".data) with
    | some t => attrD t "lang".data []
    | none => []
  let charset :=
    match (descendants soup).find? (fun n =>
        nodeTag n = "meta".data && (attrOpt n "charset".data).isSome) with
    | some t => attrD t "charset".data []
    | none => []
  let metaNamed := fun (nm : Str) =>
    match (descendants soup).find? (fun n =>
        nodeTag n = "meta".data && attrOpt n "name".data == some nm) with
    | some t => attrD t "content".data []
    | none => []
  let metaProp := fun (pr : Str) =>
    match (descendants soup).find? (fun n =>
        nodeTag n = "meta".data && attrOpt n "property".data == some pr) with
    | some t => attrD t "content".data []
    | none => []
  let canonical :=
    match (descendants soup).find? (fun n =>
        nodeTag n = "link".data &&
        (match attrOpt n "rel".data with
         | some v => (wsSplit v).contains "canonical".data
         | none => false)) with
    | some t => attrD t "href".data []
    | none => []
  [("title".data, title),
   ("description".data, metaNamed "description".data),
   ("keywords".data, metaNamed "keywords".data),
   ("author".data, metaNamed "author".data),
   ("canonical".data, canonical),
   ("robots".data, metaNamed "robots".data),
   ("og_title".data, metaProp "og:title".data),
   ("og_description".data, metaProp "og:description".data),
   ("og_image".data, metaProp "og:image".data),
   ("lang".data, lang),
   ("charset".data, charset)]

/-- `scrape_website` (scraper.py lines 29-97): on a successful fetch,
the parsed tree, no error and the metadata dict; on a
`RequestException`, `(None, str(e), {})`. -/
def scrapeWebsite (f : FetchOutcome) :
    Option Node × Option Str × List (Str × Str) :=
  match f with
  | .success doc => (some doc, none, extractPageMetadata doc)
  | .failure e => (none, some e, [])

/-- Result of one scrape request in the main flow: either the error
shown by `st.error` before `st.stop()` (no records, no export
artifacts), or the extracted record list from which all three export
artifacts are derived. -/
inductive ScrapeOutcome where
  | error (msg : Str)
  | ok (records : List ElementRecord)

/-- The scrape flow of the main app (main.py lines 560-618): fetch,
halt on a transport error, otherwise select by tags/ids (with the
default-tag fallback), optionally filter by text content, and extract
the records.  (The optional script-stripping step mutates the tree
before selection and is not modelled; the claims under study do not
involve it.) -/
def runScrape (f : FetchOutcome) (tags ids terms : List Str)
    (mode : Str) (minLength : Nat) : ScrapeOutcome :=
  match scrapeWebsite f with
  | (_, some e, _) => .error e
  | (none, none, _) => .error []
  | (some soup, none, _) =>
    let els := selectElements soup tags ids
    let els := if terms.isEmpty then els else filterByTextContent els terms mode
    .ok (extractTextContent els minLength)

/-- Modelled from the spec: the text-content filter predicate as the
claim states it — some trimmed, lowercased term matches the element's
fully-lowercased, whitespace-collapsed text under the mode. -/
def specTextFilterMatches (mode : Str) (terms : List Str) (e : Node) : Bool :=
  let ctext := pyLower (cleanText (getText e))
  terms.any (fun t =>
    let term := pyLower (pyStrip t)
    !term.isEmpty &&
      (if mode = "contains".data then isInfixB term ctext
       else if mode = "starts_with".data then isPrefixB term ctext
       else if mode = "ends_with".data then isSuffixB term ctext
       else if mode = "exact".data then term = ctext
       else false))

/-- Concrete document used by the counterexamples: a single paragraph,
no element matching tag `x` and no element with id `y`. -/
def cexDoc : Node :=
  .elem "[document]".data [] [.elem "p".data [] [.text "hi".data]]

/-- Concrete paragraph element whose flattened text contains a newline. -/
def cexNewlineElem : Node := .elem "p".data [] [.text "a\nb".data]

/-- Concrete record with empty cleaned text (as produced for an
all-whitespace paragraph when `minLength = 0`). -/
def emptyTextRec : ElementRecord :=
  { text := [], tag := "p".data, length := 0, id := [] }

/-- Concrete document used by the witnesses: a paragraph and a div
carrying id `main`. -/
def wdoc : Node :=
  .elem "[document]".data []
    [.elem "p".data [] [.text "hello".data],
     .elem "div".data [("id".data, "main".data)] [.text "world".data]]

/-! ## Properties of `clean_text` -/

theorem collapseWs_nil : collapseWs [] = [] := rfl

theorem collapseWs_singleton_ws {a : Char} (ha : pyWs a = true) :
    collapseWs [a] = [' '] := by
  show (if pyWs a then [' '] else a :: collapseWs []) = [' ']
  rw [if_pos ha]

theorem collapseWs_two_ws {a d : Char} {t : Str} (ha : pyWs a = true)
    (hd : pyWs d = true) : collapseWs (a :: d :: t) = collapseWs (d :: t) := by
  show (if pyWs a then
          (if pyWs d then collapseWs (d :: t) else ' ' :: collapseWs (d :: t))
        else a :: collapseWs (d :: t)) = collapseWs (d :: t)
  rw [if_pos ha, if_pos hd]

theorem collapseWs_ws_then_not {a d : Char} {t : Str} (ha : pyWs a = true)
    (hd : pyWs d = false) :
    collapseWs (a :: d :: t) = ' ' :: collapseWs (d :: t) := by
  show (if pyWs a then
          (if pyWs d then collapseWs (d :: t) else ' ' :: collapseWs (d :: t))
        else a :: collapseWs (d :: t)) = ' ' :: collapseWs (d :: t)
  rw [if_pos ha, if_neg (by simp [hd] : ¬pyWs d = true)]

theorem collapseWs_cons_not_ws {d : Char} {t : Str} (hd : pyWs d = false) :
    collapseWs (d :: t) = d :: collapseWs t := by
  cases t with
  | nil =>
    show (if pyWs d then [' '] else d :: collapseWs []) = d :: collapseWs []
    rw [if_neg (by simp [hd] : ¬pyWs d = true)]
  | cons e u =>
    show (if pyWs d then
            (if pyWs e then collapseWs (e :: u) else ' ' :: collapseWs (e :: u))
          else d :: collapseWs (e :: u)) = d :: collapseWs (e :: u)
    rw [if_neg (by simp [hd] : ¬pyWs d = true)]

theorem mem_collapseWs {s : Str} {c : Char} (h : c ∈ collapseWs s)
    (hw : pyWs c = true) : c = ' ' := by
  induction s with
  | nil => simp [collapseWs_nil] at h
  | cons a rest ih =>
    by_cases ha : pyWs a = true
    · cases rest with
      | nil =>
        rw [collapseWs_singleton_ws ha] at h
        simpa using h
      | cons d t =>
        by_cases hd : pyWs d = true
        · rw [collapseWs_two_ws ha hd] at h
          exact ih h
        · rw [Bool.not_eq_true] at hd
          rw [collapseWs_ws_then_not ha hd] at h
          rcases List.mem_cons.mp h with h1 | h2
          · exact h1
          · exact ih h2
    · rw [Bool.not_eq_true] at ha
      rw [collapseWs_cons_not_ws ha] at h
      rcases List.mem_cons.mp h with h1 | h2
      · rw [h1] at hw
        exact absurd hw (by simp [ha])
      · exact ih h2

/-- Adjacent characters of `collapseWs s` are never both whitespace. -/
theorem collapseWs_chain (s : Str) :
    List.Chain' (fun a b => ¬(pyWs a = true ∧ pyWs b = true))
      (collapseWs s) := by
  induction s with
  | nil => simp [collapseWs_nil]
  | cons a rest ih =>
    by_cases ha : pyWs a = true
    · cases rest with
      | nil =>
        rw [collapseWs_singleton_ws ha]
        exact List.chain'_singleton _
      | cons d t =>
        by_cases hd : pyWs d = true
        · rw [collapseWs_two_ws ha hd]
          exact ih
        · rw [Bool.not_eq_true] at hd
          rw [collapseWs_ws_then_not ha hd]
          rw [collapseWs_cons_not_ws hd] at ih ⊢
          exact List.chain'_cons.mpr ⟨fun hab => by simp [hd] at hab, ih⟩
    · rw [Bool.not_eq_true] at ha
      rw [collapseWs_cons_not_ws ha]
      refine List.chain'_cons'.mpr ⟨fun y _ hab => ?_, ih⟩
      rw [ha] at hab
      exact Bool.false_ne_true hab.1

theorem head?_dropWhile_false {p : Char → Bool} {l : Str} {c : Char}
    (h : (l.dropWhile p).head? = some c) : p c = false := by
  induction l with
  | nil => simp [List.dropWhile] at h
  | cons a t ih =>
    rw [List.dropWhile_cons] at h
    by_cases hp : p a = true
    · rw [if_pos hp] at h
      exact ih h
    · rw [Bool.not_eq_true] at hp
      rw [if_neg (by simp [hp])] at h
      simp only [List.head?_cons, Option.some.injEq] at h
      rw [← h]
      exact hp

theorem isPrefix_head?_eq {l₁ l₂ : Str} (h : l₁ <+: l₂) (hne : l₁ ≠ []) :
    l₁.head? = l₂.head? := by
  obtain ⟨t, rfl⟩ := h
  cases l₁ with
  | nil => exact absurd rfl hne
  | cons a u => rfl

theorem pyStrip_sublist (s : Str) : List.Sublist (pyStrip s) s := by
  have d1 : List.Sublist (s.dropWhile pyWs) s := List.dropWhile_sublist _
  have d2 : List.Sublist ((s.dropWhile pyWs).reverse.dropWhile pyWs)
      (s.dropWhile pyWs).reverse := List.dropWhile_sublist _
  have d3 := List.Sublist.reverse d2
  rw [List.reverse_reverse] at d3
  exact d3.trans d1

theorem pyStrip_subset (s : Str) : pyStrip s ⊆ s :=
  (pyStrip_sublist s).subset

theorem pyStrip_chain {R : Char → Char → Prop}
    (hsym : ∀ a b, R a b → R b a) {s : Str} (h : List.Chain' R s) :
    List.Chain' R (pyStrip s) := by
  have h1 : List.Chain' R (s.dropWhile pyWs) :=
    List.Chain'.suffix h (List.dropWhile_suffix _)
  have h2 : List.Chain' R (s.dropWhile pyWs).reverse :=
    List.chain'_reverse.mpr (List.Chain'.imp (fun a b hab => hsym a b hab) h1)
  have h3 : List.Chain' R ((s.dropWhile pyWs).reverse.dropWhile pyWs) :=
    List.Chain'.suffix h2 (List.dropWhile_suffix _)
  exact List.chain'_reverse.mpr (List.Chain'.imp (fun a b hab => hsym a b hab) h3)

theorem pyStrip_head {s : Str} {c : Char}
    (h : (pyStrip s).head? = some c) : pyWs c = false := by
  have hsuf : (s.dropWhile pyWs).reverse.dropWhile pyWs <:+
      (s.dropWhile pyWs).reverse := List.dropWhile_suffix _
  have hpre : pyStrip s <+: s.dropWhile pyWs := by
    refine List.reverse_suffix.mp ?_
    simpa [pyStrip] using hsuf
  have hne : pyStrip s ≠ [] := by
    intro hnil
    rw [hnil] at h
    simp at h
  rw [isPrefix_head?_eq hpre hne] at h
  exact head?_dropWhile_false h

theorem pyStrip_getLast {s : Str} {c : Char}
    (h : (pyStrip s).getLast? = some c) : pyWs c = false := by
  rw [pyStrip, List.getLast?_reverse] at h
  exact head?_dropWhile_false h

theorem cleanText_ws_is_space {s : Str} {c : Char} (h : c ∈ cleanText s)
    (hw : pyWs c = true) : c = ' ' :=
  mem_collapseWs (pyStrip_subset _ h) hw

theorem cleanText_chain (s : Str) :
    List.Chain' (fun a b => ¬(pyWs a = true ∧ pyWs b = true))
      (cleanText s) :=
  pyStrip_chain (fun _ _ hab h => hab ⟨h.2, h.1⟩) (collapseWs_chain s)

theorem cleanText_no_double_space (s : Str) :
    ¬ [' ', ' '] <:+: cleanText s := by
  intro hinf
  have := List.Chain'.infix (cleanText_chain s) hinf
  have h2 := List.chain'_cons.mp this
  exact h2.1 ⟨by decide, by decide⟩

theorem cleanText_head {s : Str} {c : Char}
    (h : (cleanText s).head? = some c) : pyWs c = false :=
  pyStrip_head h

theorem cleanText_getLast {s : Str} {c : Char}
    (h : (cleanText s).getLast? = some c) : pyWs c = false :=
  pyStrip_getLast h

/-! ## Properties of the extractor -/

theorem mkRecord_text (e : Node) :
    (mkRecord e).text = cleanText (getText e) := by
  unfold mkRecord
  split_ifs <;> rfl

theorem mkRecord_length (e : Node) :
    (mkRecord e).length = (mkRecord e).text.length := by
  unfold mkRecord
  split_ifs <;> rfl

theorem extract_cons (e : Node) (rest : List Node) (n : Nat) :
    extractTextContent (e :: rest) n =
      if n ≤ (cleanText (getText e)).length then
        mkRecord e :: extractTextContent rest n
      else extractTextContent rest n := rfl

theorem mem_extract {els : List Node} {n : Nat} {r : ElementRecord}
    (h : r ∈ extractTextContent els n) : ∃ e, e ∈ els ∧ r = mkRecord e := by
  induction els with
  | nil => simp [extractTextContent] at h
  | cons e rest ih =>
    rw [extract_cons] at h
    by_cases hc : n ≤ (cleanText (getText e)).length
    · rw [if_pos hc] at h
      rcases List.mem_cons.mp h with h1 | h2
      · exact ⟨e, List.mem_cons_self e rest, h1⟩
      · obtain ⟨x, hx, hr⟩ := ih h2
        exact ⟨x, List.mem_cons_of_mem e hx, hr⟩
    · rw [if_neg hc] at h
      obtain ⟨x, hx, hr⟩ := ih h
      exact ⟨x, List.mem_cons_of_mem e hx, hr⟩

/-- C1: for every element list and every minLength, each record
produced by `extract_text_content` satisfies `length = |text|`, its
text contains no tab, no newline and no double space (every remaining
whitespace character is a single plain space with no whitespace
neighbour), and the text has no leading or trailing whitespace. -/
theorem extract_text_content_clean (elements : List Node) (minLength : Nat)
    (r : ElementRecord) (hr : r ∈ extractTextContent elements minLength) :
    r.length = r.text.length ∧
    '\t' ∉ r.text ∧ '\n' ∉ r.text ∧
    (∀ c ∈ r.text, pyWs c = true → c = ' ') ∧
    ¬ [' ', ' '] <:+: r.text ∧
    (∀ c : Char, r.text.head? = some c → pyWs c = false) ∧
    (∀ c : Char, r.text.getLast? = some c → pyWs c = false) := by
  obtain ⟨e, _, rfl⟩ := mem_extract hr
  rw [mkRecord_text]
  refine ⟨?_, ?_, ?_, ?_, ?_, ?_, ?_⟩
  · rw [mkRecord_length, mkRecord_text]
  · intro hmem
    have := cleanText_ws_is_space hmem (by decide)
    exact absurd this (by decide)
  · intro hmem
    have := cleanText_ws_is_space hmem (by decide)
    exact absurd this (by decide)
  · exact fun c hmem hw => cleanText_ws_is_space hmem hw
  · exact cleanText_no_double_space _
  · exact fun c hc => cleanText_head hc
  · exact fun c hc => cleanText_getLast hc

/-- Witness for C1 at a concrete input: the record extracted from
`<p>a\nb</p>` contains no newline. -/
theorem extract_text_content_clean_witness :
    '\n' ∉ (mkRecord cexNewlineElem).text :=
  (extract_text_content_clean [cexNewlineElem] 0 (mkRecord cexNewlineElem)
    (show mkRecord cexNewlineElem ∈ [mkRecord cexNewlineElem] from
      List.mem_singleton.mpr rfl)).2.2.1

/-- C6: `extract_text_content` keeps exactly the elements whose cleaned
text length reaches `minLength`, in input order (a filter followed by
the record construction), and the tag-specific defaults are used when
the attribute is absent: button type `"button"`, input type `"text"`,
form method `"get"`. -/
theorem extract_text_content_spec (elements : List Node) (minLength : Nat) :
    extractTextContent elements minLength =
      (elements.filter
        (fun e => minLength ≤ (cleanText (getText e)).length)).map mkRecord ∧
    (∀ attrs children,
      attrOpt (Node.elem "button".data attrs children) "type".data = none →
      (mkRecord (Node.elem "button".data attrs children)).type =
        some "button".data) ∧
    (∀ attrs children,
      attrOpt (Node.elem "input".data attrs children) "type".data = none →
      (mkRecord (Node.elem "input".data attrs children)).type =
        some "text".data) ∧
    (∀ attrs children,
      attrOpt (Node.elem "form".data attrs children) "method".data = none →
      (mkRecord (Node.elem "form".data attrs children)).method =
        some "get".data) := by
  refine ⟨?_, ?_, ?_, ?_⟩
  · induction elements with
    | nil => rfl
    | cons e rest ih =>
      rw [extract_cons, List.filter_cons]
      by_cases hc : minLength ≤ (cleanText (getText e)).length
      · rw [if_pos hc, if_pos (by simpa using hc), List.map_cons, ih]
      · rw [if_neg hc, if_neg (by simpa using hc), ih]
  · intro attrs children h
    have hr : (mkRecord (Node.elem "button".data attrs children)).type =
        some (attrD (Node.elem "button".data attrs children) "type".data
          "button".data) := rfl
    rw [hr]
    simp [attrD, h]
  · intro attrs children h
    have hr : (mkRecord (Node.elem "input".data attrs children)).type =
        some (attrD (Node.elem "input".data attrs children) "type".data
          "text".data) := rfl
    rw [hr]
    simp [attrD, h]
  · intro attrs children h
    have hr : (mkRecord (Node.elem "form".data attrs children)).method =
        some (attrD (Node.elem "form".data attrs children) "method".data
          "get".data) := rfl
    rw [hr]
    simp [attrD, h]

/-- Witness for C6 at a concrete input: a button without a `type`
attribute gets the default `"button"`. -/
theorem extract_text_content_spec_witness :
    (mkRecord (Node.elem "button".data [] [])).type = some "button".data :=
  (extract_text_content_spec [] 0).2.1 [] [] rfl

/-! ## String predicate bridges (Python startswith / endswith / in) -/

theorem isPrefixB_iff (n : Str) : ∀ h : Str, isPrefixB n h = true ↔ n <+: h := by
  induction n with
  | nil => intro h; simp [isPrefixB]
  | cons a as ih =>
    intro h
    cases h with
    | nil => simp [isPrefixB]
    | cons b bs =>
      simp only [isPrefixB, Bool.and_eq_true, decide_eq_true_eq,
        List.cons_prefix_cons]
      exact and_congr Iff.rfl (ih bs)

theorem isSuffixB_iff (n h : Str) : isSuffixB n h = true ↔ n <:+ h := by
  rw [isSuffixB, isPrefixB_iff]
  exact List.reverse_prefix

theorem isInfixB_iff (n : Str) : ∀ h : Str, isInfixB n h = true ↔ n <:+: h := by
  intro h
  induction h with
  | nil =>
    simp only [isInfixB, List.isEmpty_iff, List.infix_nil]
  | cons c t ih =>
    simp only [isInfixB, Bool.or_eq_true, isPrefixB_iff, ih,
      List.infix_cons_iff]

/-! ## Properties of the text-content filter -/

theorem keepElem_cons (mode text t : Str) (ts : List Str) :
    keepElem mode text (t :: ts) =
      (if (pyLower (pyStrip t)).isEmpty then keepElem mode text ts
       else if mode = "contains".data && isInfixB (pyLower (pyStrip t)) text
         then true
       else if mode = "starts_with".data && isPrefixB (pyLower (pyStrip t)) text
         then true
       else if mode = "ends_with".data && isSuffixB (pyLower (pyStrip t)) text
         then true
       else if mode = "exact".data && pyLower (pyStrip t) = text then true
       else keepElem mode text ts) := rfl

theorem filterByTextContent_eq_filter (els : List Node) (terms : List Str)
    (mode : Str) :
    filterByTextContent els terms mode =
      els.filter (fun e => keepElem mode (pyLower (getText e)) terms) := by
  induction els with
  | nil => rfl
  | cons e rest ih =>
    rw [show filterByTextContent (e :: rest) terms mode =
          (if keepElem mode (pyLower (getText e)) terms then
            e :: filterByTextContent rest terms mode
          else filterByTextContent rest terms mode) from rfl,
        List.filter_cons]
    by_cases h : keepElem mode (pyLower (getText e)) terms = true
    · rw [if_pos h, if_pos h, ih]
    · rw [if_neg h, if_neg h, ih]

theorem keepElem_mode_iff (mode : Str) (B : Str → Str → Bool)
    (P : Str → Str → Prop) (hBP : ∀ a b, B a b = true ↔ P a b)
    (hcons : ∀ text t ts, keepElem mode text (t :: ts) =
      (if (pyLower (pyStrip t)).isEmpty then keepElem mode text ts
       else if B (pyLower (pyStrip t)) text then true
       else keepElem mode text ts))
    (text : Str) : ∀ terms : List Str,
    keepElem mode text terms = true ↔
      ∃ t ∈ terms, pyLower (pyStrip t) ≠ [] ∧ P (pyLower (pyStrip t)) text := by
  intro terms
  induction terms with
  | nil => simp [keepElem]
  | cons t ts ih =>
    rw [hcons]
    by_cases h0 : (pyLower (pyStrip t)).isEmpty = true
    · rw [if_pos h0, ih]
      constructor
      · rintro ⟨x, hx, hne, hp⟩
        exact ⟨x, List.mem_cons_of_mem _ hx, hne, hp⟩
      · rintro ⟨x, hx, hne, hp⟩
        rcases List.mem_cons.mp hx with rfl | hx2
        · exact absurd (List.isEmpty_iff.mp h0) hne
        · exact ⟨x, hx2, hne, hp⟩
    · rw [if_neg h0]
      by_cases hB : B (pyLower (pyStrip t)) text = true
      · rw [if_pos hB]
        constructor
        · intro _
          refine ⟨t, List.mem_cons_self t ts, ?_, (hBP _ _).mp hB⟩
          intro hnil
          exact h0 (by rw [hnil]; rfl)
        · intro _
          rfl
      · rw [if_neg hB, ih]
        constructor
        · rintro ⟨x, hx, hne, hp⟩
          exact ⟨x, List.mem_cons_of_mem _ hx, hne, hp⟩
        · rintro ⟨x, hx, hne, hp⟩
          rcases List.mem_cons.mp hx with rfl | hx2
          · exact absurd ((hBP _ _).mpr hp) hB
          · exact ⟨x, hx2, hne, hp⟩

theorem keepElem_contains_iff (text : Str) (terms : List Str) :
    keepElem "contains".data text terms = true ↔
      ∃ t ∈ terms, pyLower (pyStrip t) ≠ [] ∧
        pyLower (pyStrip t) <:+: text :=
  keepElem_mode_iff "contains".data isInfixB _ isInfixB_iff
    (fun _ _ _ => rfl) text terms

theorem keepElem_starts_iff (text : Str) (terms : List Str) :
    keepElem "starts_with".data text terms = true ↔
      ∃ t ∈ terms, pyLower (pyStrip t) ≠ [] ∧
        pyLower (pyStrip t) <+: text :=
  keepElem_mode_iff "starts_with".data isPrefixB _ isPrefixB_iff
    (fun _ _ _ => rfl) text terms

theorem keepElem_ends_iff (text : Str) (terms : List Str) :
    keepElem "ends_with".data text terms = true ↔
      ∃ t ∈ terms, pyLower (pyStrip t) ≠ [] ∧
        pyLower (pyStrip t) <:+ text :=
  keepElem_mode_iff "ends_with".data isSuffixB _ isSuffixB_iff
    (fun _ _ _ => rfl) text terms

theorem keepElem_exact_iff (text : Str) (terms : List Str) :
    keepElem "exact".data text terms = true ↔
      ∃ t ∈ terms, pyLower (pyStrip t) ≠ [] ∧
        pyLower (pyStrip t) = text :=
  keepElem_mode_iff "exact".data (fun a b => decide (a = b)) _
    (fun _ _ => by simp) (fun _ _ _ => rfl) text terms

/-- C2 fails as stated: for the paragraph `<p>a\nb</p>` and search term
`"a b"` under mode `exact`, the claim's matcher (against the
whitespace-collapsed text) accepts the element, but
`filter_by_text_content` drops it — the code matches against the raw
flattened text, which still contains the newline. -/
theorem filter_by_text_content_cex :
    specTextFilterMatches "exact".data ["a b".data] cexNewlineElem = true ∧
    filterByTextContent [cexNewlineElem] ["a b".data] "exact".data = [] :=
  ⟨rfl, rfl⟩

/-- C2 (amended): the text-content filter keeps an element iff some
trimmed, lowercased, non-empty search term matches the element's
fully-lowercased raw flattened text (not whitespace-collapsed) under
the mode — infix for `contains`, prefix for `starts_with`, suffix for
`ends_with`, equality for `exact` — and the output is a sublist of the
input, so each candidate occurrence is retained at most once even when
several terms match it. -/
theorem filter_by_text_content_spec (elements : List Node)
    (searchTerms : List Str) (_hterms : searchTerms ≠ []) :
    (∀ mode : Str,
      List.Sublist (filterByTextContent elements searchTerms mode) elements) ∧
    (∀ e, e ∈ filterByTextContent elements searchTerms "contains".data ↔
      e ∈ elements ∧ ∃ t ∈ searchTerms, pyLower (pyStrip t) ≠ [] ∧
        pyLower (pyStrip t) <:+: pyLower (getText e)) ∧
    (∀ e, e ∈ filterByTextContent elements searchTerms "starts_with".data ↔
      e ∈ elements ∧ ∃ t ∈ searchTerms, pyLower (pyStrip t) ≠ [] ∧
        pyLower (pyStrip t) <+: pyLower (getText e)) ∧
    (∀ e, e ∈ filterByTextContent elements searchTerms "ends_with".data ↔
      e ∈ elements ∧ ∃ t ∈ searchTerms, pyLower (pyStrip t) ≠ [] ∧
        pyLower (pyStrip t) <:+ pyLower (getText e)) ∧
    (∀ e, e ∈ filterByTextContent elements searchTerms "exact".data ↔
      e ∈ elements ∧ ∃ t ∈ searchTerms, pyLower (pyStrip t) ≠ [] ∧
        pyLower (pyStrip t) = pyLower (getText e)) := by
  refine ⟨?_, ?_, ?_, ?_, ?_⟩
  · intro mode
    rw [filterByTextContent_eq_filter]
    exact List.filter_sublist _
  · intro e
    rw [filterByTextContent_eq_filter, List.mem_filter]
    exact and_congr Iff.rfl (keepElem_contains_iff _ _)
  · intro e
    rw [filterByTextContent_eq_filter, List.mem_filter]
    exact and_congr Iff.rfl (keepElem_starts_iff _ _)
  · intro e
    rw [filterByTextContent_eq_filter, List.mem_filter]
    exact and_congr Iff.rfl (keepElem_ends_iff _ _)
  · intro e
    rw [filterByTextContent_eq_filter, List.mem_filter]
    exact and_congr Iff.rfl (keepElem_exact_iff _ _)

/-- Witness for C2 (amended) at a concrete input. -/
theorem filter_by_text_content_spec_witness :
    List.Sublist
      (filterByTextContent [cexNewlineElem] ["a b".data] "exact".data)
      [cexNewlineElem] :=
  (filter_by_text_content_spec [cexNewlineElem] ["a b".data]
    (List.cons_ne_nil _ _)).1 "exact".data

theorem keepElem_filter_invariant (mode text : Str) : ∀ terms : List Str,
    keepElem mode text
        (terms.filter (fun t => !(pyLower (pyStrip t)).isEmpty)) =
      keepElem mode text terms := by
  intro terms
  induction terms with
  | nil => rfl
  | cons t ts ih =>
    rw [List.filter_cons]
    by_cases h : (pyLower (pyStrip t)).isEmpty = true
    · rw [if_neg (by simp [h]), ih, keepElem_cons, if_pos h]
    · rw [Bool.not_eq_true] at h
      have hc : ¬ ((pyLower (pyStrip t)).isEmpty = true) := by simp [h]
      rw [if_pos (by simp [h] : (!(pyLower (pyStrip t)).isEmpty) = true),
          keepElem_cons, keepElem_cons, if_neg hc, if_neg hc, ih]

/-- C10: a search term that is empty or whitespace-only after trimming
is skipped — removing all such terms leaves the filter output unchanged
for every match mode — and in particular a whitespace-only term under
mode `contains` keeps no element at all. -/
theorem empty_terms_skipped (elements : List Node) (searchTerms : List Str) :
    (∀ mode : Str, filterByTextContent elements searchTerms mode =
      filterByTextContent elements
        (searchTerms.filter (fun t => !(pyLower (pyStrip t)).isEmpty)) mode) ∧
    filterByTextContent elements [" ".data] "contains".data = [] := by
  constructor
  · intro mode
    rw [filterByTextContent_eq_filter, filterByTextContent_eq_filter]
    refine List.filter_congr ?_
    intro e _
    exact (keepElem_filter_invariant mode _ searchTerms).symm
  · rw [filterByTextContent_eq_filter]
    refine List.filter_eq_nil_iff.mpr ?_
    intro e _
    show ¬ keepElem "contains".data (pyLower (getText e)) [" ".data] = true
    rw [keepElem_cons, if_pos (by decide), show keepElem "contains".data
      (pyLower (getText e)) [] = false from rfl]
    exact Bool.false_ne_true

/-! ## Properties of tag/id selection -/

theorem filterByTags_length (soup : Node) : ∀ tags : List Str,
    (filterByTags soup tags).length =
      (tags.map (fun t => (findAll soup (pyStrip t)).length)).sum := by
  intro tags
  induction tags with
  | nil => rfl
  | cons t rest ih =>
    show (findAll soup (pyStrip t) ++ filterByTags soup rest).length = _
    rw [List.length_append, ih, List.map_cons, List.sum_cons]

theorem filterByClassId_no_classes (soup : Node) (ids : List Str) :
    filterByClassId soup [] ids =
      ids.filterMap (fun i => findById soup (pyStrip i)) := rfl

theorem filterByClassId_length (soup : Node) : ∀ ids : List Str,
    (filterByClassId soup [] ids).length =
      (ids.filter (fun i => (findById soup (pyStrip i)).isSome)).length := by
  intro ids
  induction ids with
  | nil => rfl
  | cons i rest ih =>
    rw [filterByClassId_no_classes] at ih ⊢
    rw [List.filterMap_cons, List.filter_cons]
    cases hf : findById soup (pyStrip i) with
    | none => simp [ih]
    | some x => simp [ih]

theorem selectElements_of_ne (soup : Node) (tags ids : List Str)
    (h : filterByTags soup tags ++ filterByClassId soup [] ids ≠ []) :
    selectElements soup tags ids =
      filterByTags soup tags ++ filterByClassId soup [] ids := by
  show (if (filterByTags soup tags ++ filterByClassId soup [] ids).isEmpty
        then filterByTags soup defaultTags
        else filterByTags soup tags ++ filterByClassId soup [] ids) = _
  rw [if_neg (by simp [List.isEmpty_iff, h])]

theorem selectElements_of_empty (soup : Node) (tags ids : List Str)
    (h : filterByTags soup tags ++ filterByClassId soup [] ids = []) :
    selectElements soup tags ids = filterByTags soup defaultTags := by
  show (if (filterByTags soup tags ++ filterByClassId soup [] ids).isEmpty
        then filterByTags soup defaultTags
        else filterByTags soup tags ++ filterByClassId soup [] ids) = _
  rw [if_pos (by simp [List.isEmpty_iff, h])]

/-- C3 fails as stated: with tag filter `["x"]` and id filter `["y"]`,
both non-empty but matching nothing in a document holding one `<p>`,
the selection falls back to the default tag list and returns 1 element,
while the claimed length formula gives `0 + 0 = 0`. -/
theorem select_tag_id_cex :
    (selectElements cexDoc ["x".data] ["y".data]).length = 1 ∧
    (["x".data].map (fun t => (findAll cexDoc (pyStrip t)).length)).sum +
      (["y".data].filter
        (fun i => (findById cexDoc (pyStrip i)).isSome)).length = 0 :=
  ⟨rfl, rfl⟩

/-- C3 (amended): when both filter lists are non-empty and their
combined match list is non-empty (so the default-tag fallback does not
fire), the selection is exactly the tag matches (caller's tag order,
document order within each tag) followed by the per-id first matches,
without de-duplication, and its length is the sum of tag matches plus
the number of ids found. -/
theorem select_tag_id_concat (soup : Node) (tags ids : List Str)
    (_htags : tags ≠ []) (_hids : ids ≠ [])
    (hne : filterByTags soup tags ++ filterByClassId soup [] ids ≠ []) :
    selectElements soup tags ids =
      filterByTags soup tags ++ filterByClassId soup [] ids ∧
    (selectElements soup tags ids).length =
      (tags.map (fun t => (findAll soup (pyStrip t)).length)).sum +
      (ids.filter (fun i => (findById soup (pyStrip i)).isSome)).length := by
  have he := selectElements_of_ne soup tags ids hne
  refine ⟨he, ?_⟩
  rw [he, List.length_append, filterByTags_length, filterByClassId_length]

/-- Witness for C3 (amended) at a concrete input. -/
theorem select_tag_id_concat_witness :
    selectElements wdoc ["p".data] ["main".data] =
      filterByTags wdoc ["p".data] ++ filterByClassId wdoc [] ["main".data] :=
  (select_tag_id_concat wdoc ["p".data] ["main".data]
    (List.cons_ne_nil _ _) (List.cons_ne_nil _ _)
    (fun hnil => absurd (congrArg List.length hnil) (by decide))).1

/-- C5 fails as stated ("only in that case"): with the non-empty tag
filter `["x"]` matching nothing (and no id filter), the default tag
set still applies — the selection returns the 1 default-tag element
although the tag/id concatenation is empty. -/
theorem select_default_cex :
    (selectElements cexDoc ["x".data] []).length = 1 ∧
    (filterByTags cexDoc ["x".data] ++ filterByClassId cexDoc [] []).length
      = 0 :=
  ⟨rfl, rfl⟩

/-- C5 (amended): with both filters empty the selection is exactly the
default-tag elements — for each default tag in the fixed list order,
its matches in document order, concatenated; and in general the
default tag set applies exactly when the tag/id concatenation is empty
(not only when both filters are empty). -/
theorem select_default_spec (soup : Node) (tags ids : List Str) :
    (tags = [] → ids = [] → selectElements soup tags ids =
      defaultTags.flatMap (fun t =>
        (descendants soup).filter (fun n => nodeTag n = t))) ∧
    (filterByTags soup tags ++ filterByClassId soup [] ids = [] →
      selectElements soup tags ids = filterByTags soup defaultTags) ∧
    (filterByTags soup tags ++ filterByClassId soup [] ids ≠ [] →
      selectElements soup tags ids =
        filterByTags soup tags ++ filterByClassId soup [] ids) := by
  refine ⟨?_, ?_, ?_⟩
  · intro h1 h2
    subst h1
    subst h2
    rfl
  · exact selectElements_of_empty soup tags ids
  · exact selectElements_of_ne soup tags ids

/-- Witness for C5 (amended) at a concrete input. -/
theorem select_default_spec_witness :
    selectElements cexDoc [] [] =
      defaultTags.flatMap (fun t =>
        (descendants cexDoc).filter (fun n => nodeTag n = t)) :=
  (select_default_spec cexDoc [] []).1 rfl rfl

/-! ## URL resolution -/

/-- C4: all three renderer link-resolution sites implement exactly the
four documented cases: leading `/` gets `scheme://host` prepended;
leading `#` is appended to the full source URL; an absolute
`http://`/`https://`/`mailto:`/`tel:` href is unchanged; any other
href gets `scheme://host/` prepended after stripping its leading
slashes. -/
theorem resolve_href_four_cases (url href : Str) :
    resolveHrefText url href = resolveHrefSpec url href ∧
    resolveHrefMd url href = resolveHrefSpec url href ∧
    resolveHrefMain url href = resolveHrefSpec url href := by
  refine ⟨?_, ?_, ?_⟩
  · simp only [resolveHrefText, resolveHrefSpec]
    by_cases h1 : isPrefixB "/".data href = true <;>
      by_cases h2 : isPrefixB "#".data href = true <;>
        by_cases h3 : (isPrefixB "http://".data href ||
            isPrefixB "https://".data href || isPrefixB "mailto:".data href ||
            isPrefixB "tel:".data href) = true <;>
          simp [h1, h2, h3]
  · simp only [resolveHrefMd, resolveHrefSpec]
    by_cases h1 : isPrefixB "/".data href = true <;>
      by_cases h2 : isPrefixB "#".data href = true <;>
        by_cases h3 : (isPrefixB "http://".data href ||
            isPrefixB "https://".data href || isPrefixB "mailto:".data href ||
            isPrefixB "tel:".data href) = true <;>
          simp [h1, h2, h3]
  · simp only [resolveHrefMain, resolveHrefSpec]
    by_cases h1 : isPrefixB "/".data href = true <;>
      by_cases h2 : isPrefixB "#".data href = true <;>
        by_cases h3 : (isPrefixB "http://".data href ||
            isPrefixB "https://".data href || isPrefixB "mailto:".data href ||
            isPrefixB "tel:".data href) = true <;>
          simp [h1, h2, h3]

/-! ## Renderer consistency (text vs. markdown) -/

/-- C8 fails as stated: the two renderers do not emit the same records
within a section — for a paragraph record with empty cleaned text the
text renderer emits its (empty) line, while the markdown renderer
skips it. -/
theorem renderers_sections_cex :
    renderedRecsText "P".data [emptyTextRec] = [emptyTextRec] ∧
    renderedRecsMd "P".data [emptyTextRec] = [] :=
  ⟨rfl, rfl⟩

/-- C8 (amended): the text and markdown renderers group records into
identical section sequences (same sections, same order, same records
per section); within a section the markdown renderer emits a sublist
of the records the text renderer emits (it skips non-link records with
empty text), preserving relative order; and both resolve every href
with the same function. -/
theorem renderers_consistent :
    (∀ results : List ElementRecord, textSections results = mdSections results) ∧
    (∀ (tag : Str) (group : List ElementRecord),
      List.Sublist (renderedRecsMd tag group) (renderedRecsText tag group)) ∧
    (∀ url href : Str, resolveHrefText url href = resolveHrefMd url href) :=
  ⟨fun _ => rfl, fun _ group => List.filter_sublist group, fun _ _ => rfl⟩


/-! ## JSON round-trip -/

theorem lookupStr_nil {β : Type} (k : Str) :
    lookupStr k ([] : List (Str × β)) = none := rfl

theorem lookupStr_head_eq {β : Type} (k : Str) (v : β)
    (rest : List (Str × β)) : lookupStr k ((k, v) :: rest) = some v := by
  simp [lookupStr]

theorem lookupStr_head_ne {β : Type} (p k : Str) (v : β)
    (rest : List (Str × β)) (h : p ≠ k) :
    lookupStr k ((p, v) :: rest) = lookupStr k rest := by
  simp [lookupStr, h]

theorem lookupStr_optS_skip (p k : Str) (v : Option Str)
    (rest : List (Str × Json)) (h : p ≠ k) :
    lookupStr k (optS p v ++ rest) = lookupStr k rest := by
  cases v <;> simp [optS, lookupStr, h]

theorem lookupStr_optB_skip (p k : Str) (v : Option (Option Str))
    (rest : List (Str × Json)) (h : p ≠ k) :
    lookupStr k (optB p v ++ rest) = lookupStr k rest := by
  cases v with
  | none => simp [optB]
  | some vv => cases vv <;> simp [optB, lookupStr, h]

theorem lookupStr_optS_self_some (k s : Str) (rest : List (Str × Json)) :
    lookupStr k (optS k (some s) ++ rest) = some (Json.str s) := by
  simp [optS, lookupStr]

theorem lookupStr_optS_self_none (k : Str) (rest : List (Str × Json)) :
    lookupStr k (optS k none ++ rest) = lookupStr k rest := rfl

theorem lookupStr_optB_self_none (k : Str) (rest : List (Str × Json)) :
    lookupStr k (optB k none ++ rest) = lookupStr k rest := rfl

theorem lookupStr_optB_self_false (k : Str) (rest : List (Str × Json)) :
    lookupStr k (optB k (some none) ++ rest) = some (Json.bool false) := by
  simp [optB, lookupStr]

theorem lookupStr_optB_self_some (k s : Str) (rest : List (Str × Json)) :
    lookupStr k (optB k (some (some s)) ++ rest) = some (Json.str s) := by
  simp [optB, lookupStr]

theorem dec_text (r : ElementRecord) :
    decStr (recordKvs r) "text".data = some r.text := by
  unfold decStr recordKvs
  rw [lookupStr_head_eq "text".data]
theorem dec_tag (r : ElementRecord) :
    decStr (recordKvs r) "tag".data = some r.tag := by
  unfold decStr recordKvs
  rw [lookupStr_head_ne "text".data "tag".data _ _ (by decide),
      lookupStr_head_eq "tag".data]
theorem dec_length (r : ElementRecord) :
    decNum (recordKvs r) "length".data = some r.length := by
  unfold decNum recordKvs
  rw [lookupStr_head_ne "text".data "length".data _ _ (by decide),
      lookupStr_head_ne "tag".data "length".data _ _ (by decide),
      lookupStr_head_eq "length".data]
theorem dec_id (r : ElementRecord) :
    decStr (recordKvs r) "id".data = some r.id := by
  unfold decStr recordKvs
  rw [lookupStr_head_ne "text".data "id".data _ _ (by decide),
      lookupStr_head_ne "tag".data "id".data _ _ (by decide),
      lookupStr_head_ne "length".data "id".data _ _ (by decide),
      lookupStr_head_eq "id".data]
theorem dec_href (r : ElementRecord) :
    decOptS (recordKvs r) "href".data = some r.href := by
  unfold decOptS recordKvs
  rw [lookupStr_head_ne "text".data "href".data _ _ (by decide),
      lookupStr_head_ne "tag".data "href".data _ _ (by decide),
      lookupStr_head_ne "length".data "href".data _ _ (by decide),
      lookupStr_head_ne "id".data "href".data _ _ (by decide)]
  cases hf : r.href with
  | some s => rw [lookupStr_optS_self_some]
  | none =>
    rw [lookupStr_optS_self_none,
      lookupStr_optS_skip "target".data "href".data _ _ (by decide),
      lookupStr_optS_skip "title".data "href".data _ _ (by decide),
      lookupStr_optS_skip "rel".data "href".data _ _ (by decide),
      lookupStr_optS_skip "type".data "href".data _ _ (by decide),
      lookupStr_optS_skip "onclick".data "href".data _ _ (by decide),
      lookupStr_optS_skip "form".data "href".data _ _ (by decide),
      lookupStr_optB_skip "disabled".data "href".data _ _ (by decide),
      lookupStr_optS_skip "name".data "href".data _ _ (by decide),
      lookupStr_optS_skip "placeholder".data "href".data _ _ (by decide),
      lookupStr_optS_skip "value".data "href".data _ _ (by decide),
      lookupStr_optB_skip "required".data "href".data _ _ (by decide),
      lookupStr_optS_skip "src".data "href".data _ _ (by decide),
      lookupStr_optS_skip "alt".data "href".data _ _ (by decide),
      lookupStr_optS_skip "action".data "href".data _ _ (by decide),
      lookupStr_optS_skip "method".data "href".data _ _ (by decide),
      lookupStr_nil "href".data]
theorem dec_target (r : ElementRecord) :
    decOptS (recordKvs r) "target".data = some r.target := by
  unfold decOptS recordKvs
  rw [lookupStr_head_ne "text".data "target".data _ _ (by decide),
      lookupStr_head_ne "tag".data "target".data _ _ (by decide),
      lookupStr_head_ne "length".data "target".data _ _ (by decide),
      lookupStr_head_ne "id".data "target".data _ _ (by decide),
      lookupStr_optS_skip "href".data "target".data _ _ (by decide)]
  cases hf : r.target with
  | some s => rw [lookupStr_optS_self_some]
  | none =>
    rw [lookupStr_optS_self_none,
      lookupStr_optS_skip "title".data "target".data _ _ (by decide),
      lookupStr_optS_skip "rel".data "target".data _ _ (by decide),
      lookupStr_optS_skip "type".data "target".data _ _ (by decide),
      lookupStr_optS_skip "onclick".data "target".data _ _ (by decide),
      lookupStr_optS_skip "form".data "target".data _ _ (by decide),
      lookupStr_optB_skip "disabled".data "target".data _ _ (by decide),
      lookupStr_optS_skip "name".data "target".data _ _ (by decide),
      lookupStr_optS_skip "placeholder".data "target".data _ _ (by decide),
      lookupStr_optS_skip "value".data "target".data _ _ (by decide),
      lookupStr_optB_skip "required".data "target".data _ _ (by decide),
      lookupStr_optS_skip "src".data "target".data _ _ (by decide),
      lookupStr_optS_skip "alt".data "target".data _ _ (by decide),
      lookupStr_optS_skip "action".data "target".data _ _ (by decide),
      lookupStr_optS_skip "method".data "target".data _ _ (by decide),
      lookupStr_nil "target".data]
theorem dec_title (r : ElementRecord) :
    decOptS (recordKvs r) "title".data = some r.title := by
  unfold decOptS recordKvs
  rw [lookupStr_head_ne "text".data "title".data _ _ (by decide),
      lookupStr_head_ne "tag".data "title".data _ _ (by decide),
      lookupStr_head_ne "length".data "title".data _ _ (by decide),
      lookupStr_head_ne "id".data "title".data _ _ (by decide),
      lookupStr_optS_skip "href".data "title".data _ _ (by decide),
      lookupStr_optS_skip "target".data "title".data _ _ (by decide)]
  cases hf : r.title with
  | some s => rw [lookupStr_optS_self_some]
  | none =>
    rw [lookupStr_optS_self_none,
      lookupStr_optS_skip "rel".data "title".data _ _ (by decide),
      lookupStr_optS_skip "type".data "title".data _ _ (by decide),
      lookupStr_optS_skip "onclick".data "title".data _ _ (by decide),
      lookupStr_optS_skip "form".data "title".data _ _ (by decide),
      lookupStr_optB_skip "disabled".data "title".data _ _ (by decide),
      lookupStr_optS_skip "name".data "title".data _ _ (by decide),
      lookupStr_optS_skip "placeholder".data "title".data _ _ (by decide),
      lookupStr_optS_skip "value".data "title".data _ _ (by decide),
      lookupStr_optB_skip "required".data "title".data _ _ (by decide),
      lookupStr_optS_skip "src".data "title".data _ _ (by decide),
      lookupStr_optS_skip "alt".data "title".data _ _ (by decide),
      lookupStr_optS_skip "action".data "title".data _ _ (by decide),
      lookupStr_optS_skip "method".data "title".data _ _ (by decide),
      lookupStr_nil "title".data]
theorem dec_rel (r : ElementRecord) :
    decOptS (recordKvs r) "rel".data = some r.rel := by
  unfold decOptS recordKvs
  rw [lookupStr_head_ne "text".data "rel".data _ _ (by decide),
      lookupStr_head_ne "tag".data "rel".data _ _ (by decide),
      lookupStr_head_ne "length".data "rel".data _ _ (by decide),
      lookupStr_head_ne "id".data "rel".data _ _ (by decide),
      lookupStr_optS_skip "href".data "rel".data _ _ (by decide),
      lookupStr_optS_skip "target".data "rel".data _ _ (by decide),
      lookupStr_optS_skip "title".data "rel".data _ _ (by decide)]
  cases hf : r.rel with
  | some s => rw [lookupStr_optS_self_some]
  | none =>
    rw [lookupStr_optS_self_none,
      lookupStr_optS_skip "type".data "rel".data _ _ (by decide),
      lookupStr_optS_skip "onclick".data "rel".data _ _ (by decide),
      lookupStr_optS_skip "form".data "rel".data _ _ (by decide),
      lookupStr_optB_skip "disabled".data "rel".data _ _ (by decide),
      lookupStr_optS_skip "name".data "rel".data _ _ (by decide),
      lookupStr_optS_skip "placeholder".data "rel".data _ _ (by decide),
      lookupStr_optS_skip "value".data "rel".data _ _ (by decide),
      lookupStr_optB_skip "required".data "rel".data _ _ (by decide),
      lookupStr_optS_skip "src".data "rel".data _ _ (by decide),
      lookupStr_optS_skip "alt".data "rel".data _ _ (by decide),
      lookupStr_optS_skip "action".data "rel".data _ _ (by decide),
      lookupStr_optS_skip "method".data "rel".data _ _ (by decide),
      lookupStr_nil "rel".data]
theorem dec_type (r : ElementRecord) :
    decOptS (recordKvs r) "type".data = some r.type := by
  unfold decOptS recordKvs
  rw [lookupStr_head_ne "text".data "type".data _ _ (by decide),
      lookupStr_head_ne "tag".data "type".data _ _ (by decide),
      lookupStr_head_ne "length".data "type".data _ _ (by decide),
      lookupStr_head_ne "id".data "type".data _ _ (by decide),
      lookupStr_optS_skip "href".data "type".data _ _ (by decide),
      lookupStr_optS_skip "target".data "type".data _ _ (by decide),
      lookupStr_optS_skip "title".data "type".data _ _ (by decide),
      lookupStr_optS_skip "rel".data "type".data _ _ (by decide)]
  cases hf : r.type with
  | some s => rw [lookupStr_optS_self_some]
  | none =>
    rw [lookupStr_optS_self_none,
      lookupStr_optS_skip "onclick".data "type".data _ _ (by decide),
      lookupStr_optS_skip "form".data "type".data _ _ (by decide),
      lookupStr_optB_skip "disabled".data "type".data _ _ (by decide),
      lookupStr_optS_skip "name".data "type".data _ _ (by decide),
      lookupStr_optS_skip "placeholder".data "type".data _ _ (by decide),
      lookupStr_optS_skip "value".data "type".data _ _ (by decide),
      lookupStr_optB_skip "required".data "type".data _ _ (by decide),
      lookupStr_optS_skip "src".data "type".data _ _ (by decide),
      lookupStr_optS_skip "alt".data "type".data _ _ (by decide),
      lookupStr_optS_skip "action".data "type".data _ _ (by decide),
      lookupStr_optS_skip "method".data "type".data _ _ (by decide),
      lookupStr_nil "type".data]
theorem dec_onclick (r : ElementRecord) :
    decOptS (recordKvs r) "onclick".data = some r.onclick := by
  unfold decOptS recordKvs
  rw [lookupStr_head_ne "text".data "onclick".data _ _ (by decide),
      lookupStr_head_ne "tag".data "onclick".data _ _ (by decide),
      lookupStr_head_ne "length".data "onclick".data _ _ (by decide),
      lookupStr_head_ne "id".data "onclick".data _ _ (by decide),
      lookupStr_optS_skip "href".data "onclick".data _ _ (by decide),
      lookupStr_optS_skip "target".data "onclick".data _ _ (by decide),
      lookupStr_optS_skip "title".data "onclick".data _ _ (by decide),
      lookupStr_optS_skip "rel".data "onclick".data _ _ (by decide),
      lookupStr_optS_skip "type".data "onclick".data _ _ (by decide)]
  cases hf : r.onclick with
  | some s => rw [lookupStr_optS_self_some]
  | none =>
    rw [lookupStr_optS_self_none,
      lookupStr_optS_skip "form".data "onclick".data _ _ (by decide),
      lookupStr_optB_skip "disabled".data "onclick".data _ _ (by decide),
      lookupStr_optS_skip "name".data "onclick".data _ _ (by decide),
      lookupStr_optS_skip "placeholder".data "onclick".data _ _ (by decide),
      lookupStr_optS_skip "value".data "onclick".data _ _ (by decide),
      lookupStr_optB_skip "required".data "onclick".data _ _ (by decide),
      lookupStr_optS_skip "src".data "onclick".data _ _ (by decide),
      lookupStr_optS_skip "alt".data "onclick".data _ _ (by decide),
      lookupStr_optS_skip "action".data "onclick".data _ _ (by decide),
      lookupStr_optS_skip "method".data "onclick".data _ _ (by decide),
      lookupStr_nil "onclick".data]
theorem dec_form (r : ElementRecord) :
    decOptS (recordKvs r) "form".data = some r.form := by
  unfold decOptS recordKvs
  rw [lookupStr_head_ne "text".data "form".data _ _ (by decide),
      lookupStr_head_ne "tag".data "form".data _ _ (by decide),
      lookupStr_head_ne "length".data "form".data _ _ (by decide),
      lookupStr_head_ne "id".data "form".data _ _ (by decide),
      lookupStr_optS_skip "href".data "form".data _ _ (by decide),
      lookupStr_optS_skip "target".data "form".data _ _ (by decide),
      lookupStr_optS_skip "title".data "form".data _ _ (by decide),
      lookupStr_optS_skip "rel".data "form".data _ _ (by decide),
      lookupStr_optS_skip "type".data "form".data _ _ (by decide),
      lookupStr_optS_skip "onclick".data "form".data _ _ (by decide)]
  cases hf : r.form with
  | some s => rw [lookupStr_optS_self_some]
  | none =>
    rw [lookupStr_optS_self_none,
      lookupStr_optB_skip "disabled".data "form".data _ _ (by decide),
      lookupStr_optS_skip "name".data "form".data _ _ (by decide),
      lookupStr_optS_skip "placeholder".data "form".data _ _ (by decide),
      lookupStr_optS_skip "value".data "form".data _ _ (by decide),
      lookupStr_optB_skip "required".data "form".data _ _ (by decide),
      lookupStr_optS_skip "src".data "form".data _ _ (by decide),
      lookupStr_optS_skip "alt".data "form".data _ _ (by decide),
      lookupStr_optS_skip "action".data "form".data _ _ (by decide),
      lookupStr_optS_skip "method".data "form".data _ _ (by decide),
      lookupStr_nil "form".data]
theorem dec_disabled (r : ElementRecord) :
    decOptB (recordKvs r) "disabled".data = some r.disabled := by
  unfold decOptB recordKvs
  rw [lookupStr_head_ne "text".data "disabled".data _ _ (by decide),
      lookupStr_head_ne "tag".data "disabled".data _ _ (by decide),
      lookupStr_head_ne "length".data "disabled".data _ _ (by decide),
      lookupStr_head_ne "id".data "disabled".data _ _ (by decide),
      lookupStr_optS_skip "href".data "disabled".data _ _ (by decide),
      lookupStr_optS_skip "target".data "disabled".data _ _ (by decide),
      lookupStr_optS_skip "title".data "disabled".data _ _ (by decide),
      lookupStr_optS_skip "rel".data "disabled".data _ _ (by decide),
      lookupStr_optS_skip "type".data "disabled".data _ _ (by decide),
      lookupStr_optS_skip "onclick".data "disabled".data _ _ (by decide),
      lookupStr_optS_skip "form".data "disabled".data _ _ (by decide)]
  cases hf : r.disabled with
  | some vv =>
    cases vv with
    | none => rw [lookupStr_optB_self_false]
    | some s => rw [lookupStr_optB_self_some]
  | none =>
    rw [lookupStr_optB_self_none,
      lookupStr_optS_skip "name".data "disabled".data _ _ (by decide),
      lookupStr_optS_skip "placeholder".data "disabled".data _ _ (by decide),
      lookupStr_optS_skip "value".data "disabled".data _ _ (by decide),
      lookupStr_optB_skip "required".data "disabled".data _ _ (by decide),
      lookupStr_optS_skip "src".data "disabled".data _ _ (by decide),
      lookupStr_optS_skip "alt".data "disabled".data _ _ (by decide),
      lookupStr_optS_skip "action".data "disabled".data _ _ (by decide),
      lookupStr_optS_skip "method".data "disabled".data _ _ (by decide),
      lookupStr_nil "disabled".data]
theorem dec_name (r : ElementRecord) :
    decOptS (recordKvs r) "name".data = some r.name := by
  unfold decOptS recordKvs
  rw [lookupStr_head_ne "text".data "name".data _ _ (by decide),
      lookupStr_head_ne "tag".data "name".data _ _ (by decide),
      lookupStr_head_ne "length".data "name".data _ _ (by decide),
      lookupStr_head_ne "id".data "name".data _ _ (by decide),
      lookupStr_optS_skip "href".data "name".data _ _ (by decide),
      lookupStr_optS_skip "target".data "name".data _ _ (by decide),
      lookupStr_optS_skip "title".data "name".data _ _ (by decide),
      lookupStr_optS_skip "rel".data "name".data _ _ (by decide),
      lookupStr_optS_skip "type".data "name".data _ _ (by decide),
      lookupStr_optS_skip "onclick".data "name".data _ _ (by decide),
      lookupStr_optS_skip "form".data "name".data _ _ (by decide),
      lookupStr_optB_skip "disabled".data "name".data _ _ (by decide)]
  cases hf : r.name with
  | some s => rw [lookupStr_optS_self_some]
  | none =>
    rw [lookupStr_optS_self_none,
      lookupStr_optS_skip "placeholder".data "name".data _ _ (by decide),
      lookupStr_optS_skip "value".data "name".data _ _ (by decide),
      lookupStr_optB_skip "required".data "name".data _ _ (by decide),
      lookupStr_optS_skip "src".data "name".data _ _ (by decide),
      lookupStr_optS_skip "alt".data "name".data _ _ (by decide),
      lookupStr_optS_skip "action".data "name".data _ _ (by decide),
      lookupStr_optS_skip "method".data "name".data _ _ (by decide),
      lookupStr_nil "name".data]
theorem dec_placeholder (r : ElementRecord) :
    decOptS (recordKvs r) "placeholder".data = some r.placeholder := by
  unfold decOptS recordKvs
  rw [lookupStr_head_ne "text".data "placeholder".data _ _ (by decide),
      lookupStr_head_ne "tag".data "placeholder".data _ _ (by decide),
      lookupStr_head_ne "length".data "placeholder".data _ _ (by decide),
      lookupStr_head_ne "id".data "placeholder".data _ _ (by decide),
      lookupStr_optS_skip "href".data "placeholder".data _ _ (by decide),
      lookupStr_optS_skip "target".data "placeholder".data _ _ (by decide),
      lookupStr_optS_skip "title".data "placeholder".data _ _ (by decide),
      lookupStr_optS_skip "rel".data "placeholder".data _ _ (by decide),
      lookupStr_optS_skip "type".data "placeholder".data _ _ (by decide),
      lookupStr_optS_skip "onclick".data "placeholder".data _ _ (by decide),
      lookupStr_optS_skip "form".data "placeholder".data _ _ (by decide),
      lookupStr_optB_skip "disabled".data "placeholder".data _ _ (by decide),
      lookupStr_optS_skip "name".data "placeholder".data _ _ (by decide)]
  cases hf : r.placeholder with
  | some s => rw [lookupStr_optS_self_some]
  | none =>
    rw [lookupStr_optS_self_none,
      lookupStr_optS_skip "value".data "placeholder".data _ _ (by decide),
      lookupStr_optB_skip "required".data "placeholder".data _ _ (by decide),
      lookupStr_optS_skip "src".data "placeholder".data _ _ (by decide),
      lookupStr_optS_skip "alt".data "placeholder".data _ _ (by decide),
      lookupStr_optS_skip "action".data "placeholder".data _ _ (by decide),
      lookupStr_optS_skip "method".data "placeholder".data _ _ (by decide),
      lookupStr_nil "placeholder".data]
theorem dec_value (r : ElementRecord) :
    decOptS (recordKvs r) "value".data = some r.value := by
  unfold decOptS recordKvs
  rw [lookupStr_head_ne "text".data "value".data _ _ (by decide),
      lookupStr_head_ne "tag".data "value".data _ _ (by decide),
      lookupStr_head_ne "length".data "value".data _ _ (by decide),
      lookupStr_head_ne "id".data "value".data _ _ (by decide),
      lookupStr_optS_skip "href".data "value".data _ _ (by decide),
      lookupStr_optS_skip "target".data "value".data _ _ (by decide),
      lookupStr_optS_skip "title".data "value".data _ _ (by decide),
      lookupStr_optS_skip "rel".data "value".data _ _ (by decide),
      lookupStr_optS_skip "type".data "value".data _ _ (by decide),
      lookupStr_optS_skip "onclick".data "value".data _ _ (by decide),
      lookupStr_optS_skip "form".data "value".data _ _ (by decide),
      lookupStr_optB_skip "disabled".data "value".data _ _ (by decide),
      lookupStr_optS_skip "name".data "value".data _ _ (by decide),
      lookupStr_optS_skip "placeholder".data "value".data _ _ (by decide)]
  cases hf : r.value with
  | some s => rw [lookupStr_optS_self_some]
  | none =>
    rw [lookupStr_optS_self_none,
      lookupStr_optB_skip "required".data "value".data _ _ (by decide),
      lookupStr_optS_skip "src".data "value".data _ _ (by decide),
      lookupStr_optS_skip "alt".data "value".data _ _ (by decide),
      lookupStr_optS_skip "action".data "value".data _ _ (by decide),
      lookupStr_optS_skip "method".data "value".data _ _ (by decide),
      lookupStr_nil "value".data]
theorem dec_required (r : ElementRecord) :
    decOptB (recordKvs r) "required".data = some r.required := by
  unfold decOptB recordKvs
  rw [lookupStr_head_ne "text".data "required".data _ _ (by decide),
      lookupStr_head_ne "tag".data "required".data _ _ (by decide),
      lookupStr_head_ne "length".data "required".data _ _ (by decide),
      lookupStr_head_ne "id".data "required".data _ _ (by decide),
      lookupStr_optS_skip "href".data "required".data _ _ (by decide),
      lookupStr_optS_skip "target".data "required".data _ _ (by decide),
      lookupStr_optS_skip "title".data "required".data _ _ (by decide),
      lookupStr_optS_skip "rel".data "required".data _ _ (by decide),
      lookupStr_optS_skip "type".data "required".data _ _ (by decide),
      lookupStr_optS_skip "onclick".data "required".data _ _ (by decide),
      lookupStr_optS_skip "form".data "required".data _ _ (by decide),
      lookupStr_optB_skip "disabled".data "required".data _ _ (by decide),
      lookupStr_optS_skip "name".data "required".data _ _ (by decide),
      lookupStr_optS_skip "placeholder".data "required".data _ _ (by decide),
      lookupStr_optS_skip "value".data "required".data _ _ (by decide)]
  cases hf : r.required with
  | some vv =>
    cases vv with
    | none => rw [lookupStr_optB_self_false]
    | some s => rw [lookupStr_optB_self_some]
  | none =>
    rw [lookupStr_optB_self_none,
      lookupStr_optS_skip "src".data "required".data _ _ (by decide),
      lookupStr_optS_skip "alt".data "required".data _ _ (by decide),
      lookupStr_optS_skip "action".data "required".data _ _ (by decide),
      lookupStr_optS_skip "method".data "required".data _ _ (by decide),
      lookupStr_nil "required".data]
theorem dec_src (r : ElementRecord) :
    decOptS (recordKvs r) "src".data = some r.src := by
  unfold decOptS recordKvs
  rw [lookupStr_head_ne "text".data "src".data _ _ (by decide),
      lookupStr_head_ne "tag".data "src".data _ _ (by decide),
      lookupStr_head_ne "length".data "src".data _ _ (by decide),
      lookupStr_head_ne "id".data "src".data _ _ (by decide),
      lookupStr_optS_skip "href".data "src".data _ _ (by decide),
      lookupStr_optS_skip "target".data "src".data _ _ (by decide),
      lookupStr_optS_skip "title".data "src".data _ _ (by decide),
      lookupStr_optS_skip "rel".data "src".data _ _ (by decide),
      lookupStr_optS_skip "type".data "src".data _ _ (by decide),
      lookupStr_optS_skip "onclick".data "src".data _ _ (by decide),
      lookupStr_optS_skip "form".data "src".data _ _ (by decide),
      lookupStr_optB_skip "disabled".data "src".data _ _ (by decide),
      lookupStr_optS_skip "name".data "src".data _ _ (by decide),
      lookupStr_optS_skip "placeholder".data "src".data _ _ (by decide),
      lookupStr_optS_skip "value".data "src".data _ _ (by decide),
      lookupStr_optB_skip "required".data "src".data _ _ (by decide)]
  cases hf : r.src with
  | some s => rw [lookupStr_optS_self_some]
  | none =>
    rw [lookupStr_optS_self_none,
      lookupStr_optS_skip "alt".data "src".data _ _ (by decide),
      lookupStr_optS_skip "action".data "src".data _ _ (by decide),
      lookupStr_optS_skip "method".data "src".data _ _ (by decide),
      lookupStr_nil "src".data]
theorem dec_alt (r : ElementRecord) :
    decOptS (recordKvs r) "alt".data = some r.alt := by
  unfold decOptS recordKvs
  rw [lookupStr_head_ne "text".data "alt".data _ _ (by decide),
      lookupStr_head_ne "tag".data "alt".data _ _ (by decide),
      lookupStr_head_ne "length".data "alt".data _ _ (by decide),
      lookupStr_head_ne "id".data "alt".data _ _ (by decide),
      lookupStr_optS_skip "href".data "alt".data _ _ (by decide),
      lookupStr_optS_skip "target".data "alt".data _ _ (by decide),
      lookupStr_optS_skip "title".data "alt".data _ _ (by decide),
      lookupStr_optS_skip "rel".data "alt".data _ _ (by decide),
      lookupStr_optS_skip "type".data "alt".data _ _ (by decide),
      lookupStr_optS_skip "onclick".data "alt".data _ _ (by decide),
      lookupStr_optS_skip "form".data "alt".data _ _ (by decide),
      lookupStr_optB_skip "disabled".data "alt".data _ _ (by decide),
      lookupStr_optS_skip "name".data "alt".data _ _ (by decide),
      lookupStr_optS_skip "placeholder".data "alt".data _ _ (by decide),
      lookupStr_optS_skip "value".data "alt".data _ _ (by decide),
      lookupStr_optB_skip "required".data "alt".data _ _ (by decide),
      lookupStr_optS_skip "src".data "alt".data _ _ (by decide)]
  cases hf : r.alt with
  | some s => rw [lookupStr_optS_self_some]
  | none =>
    rw [lookupStr_optS_self_none,
      lookupStr_optS_skip "action".data "alt".data _ _ (by decide),
      lookupStr_optS_skip "method".data "alt".data _ _ (by decide),
      lookupStr_nil "alt".data]
theorem dec_action (r : ElementRecord) :
    decOptS (recordKvs r) "action".data = some r.action := by
  unfold decOptS recordKvs
  rw [lookupStr_head_ne "text".data "action".data _ _ (by decide),
      lookupStr_head_ne "tag".data "action".data _ _ (by decide),
      lookupStr_head_ne "length".data "action".data _ _ (by decide),
      lookupStr_head_ne "id".data "action".data _ _ (by decide),
      lookupStr_optS_skip "href".data "action".data _ _ (by decide),
      lookupStr_optS_skip "target".data "action".data _ _ (by decide),
      lookupStr_optS_skip "title".data "action".data _ _ (by decide),
      lookupStr_optS_skip "rel".data "action".data _ _ (by decide),
      lookupStr_optS_skip "type".data "action".data _ _ (by decide),
      lookupStr_optS_skip "onclick".data "action".data _ _ (by decide),
      lookupStr_optS_skip "form".data "action".data _ _ (by decide),
      lookupStr_optB_skip "disabled".data "action".data _ _ (by decide),
      lookupStr_optS_skip "name".data "action".data _ _ (by decide),
      lookupStr_optS_skip "placeholder".data "action".data _ _ (by decide),
      lookupStr_optS_skip "value".data "action".data _ _ (by decide),
      lookupStr_optB_skip "required".data "action".data _ _ (by decide),
      lookupStr_optS_skip "src".data "action".data _ _ (by decide),
      lookupStr_optS_skip "alt".data "action".data _ _ (by decide)]
  cases hf : r.action with
  | some s => rw [lookupStr_optS_self_some]
  | none =>
    rw [lookupStr_optS_self_none,
      lookupStr_optS_skip "method".data "action".data _ _ (by decide),
      lookupStr_nil "action".data]
theorem dec_method (r : ElementRecord) :
    decOptS (recordKvs r) "method".data = some r.method := by
  unfold decOptS recordKvs
  rw [lookupStr_head_ne "text".data "method".data _ _ (by decide),
      lookupStr_head_ne "tag".data "method".data _ _ (by decide),
      lookupStr_head_ne "length".data "method".data _ _ (by decide),
      lookupStr_head_ne "id".data "method".data _ _ (by decide),
      lookupStr_optS_skip "href".data "method".data _ _ (by decide),
      lookupStr_optS_skip "target".data "method".data _ _ (by decide),
      lookupStr_optS_skip "title".data "method".data _ _ (by decide),
      lookupStr_optS_skip "rel".data "method".data _ _ (by decide),
      lookupStr_optS_skip "type".data "method".data _ _ (by decide),
      lookupStr_optS_skip "onclick".data "method".data _ _ (by decide),
      lookupStr_optS_skip "form".data "method".data _ _ (by decide),
      lookupStr_optB_skip "disabled".data "method".data _ _ (by decide),
      lookupStr_optS_skip "name".data "method".data _ _ (by decide),
      lookupStr_optS_skip "placeholder".data "method".data _ _ (by decide),
      lookupStr_optS_skip "value".data "method".data _ _ (by decide),
      lookupStr_optB_skip "required".data "method".data _ _ (by decide),
      lookupStr_optS_skip "src".data "method".data _ _ (by decide),
      lookupStr_optS_skip "alt".data "method".data _ _ (by decide),
      lookupStr_optS_skip "action".data "method".data _ _ (by decide)]
  cases hf : r.method with
  | some s => rw [lookupStr_optS_self_some]
  | none =>
    rw [lookupStr_optS_self_none,
      lookupStr_nil "method".data]
theorem decodeBase_eq (r : ElementRecord) :
    decodeBase (recordKvs r) = some (r.text, r.tag, r.length, r.id) := by
  unfold decodeBase
  rw [dec_text, dec_tag, dec_length, dec_id]

theorem decodeOpts1_eq (r : ElementRecord) :
    decodeOpts1 (recordKvs r) = some (r.href, r.target, r.title, r.rel,
      r.type, r.onclick, r.form, r.disabled) := by
  unfold decodeOpts1
  rw [dec_href, dec_target, dec_title, dec_rel, dec_type, dec_onclick,
      dec_form, dec_disabled]

theorem decodeOpts2_eq (r : ElementRecord) :
    decodeOpts2 (recordKvs r) = some (r.name, r.placeholder, r.value,
      r.required, r.src, r.alt, r.action, r.method) := by
  unfold decodeOpts2
  rw [dec_name, dec_placeholder, dec_value, dec_required, dec_src,
      dec_alt, dec_action, dec_method]

theorem decodeRecord_roundtrip (r : ElementRecord) :
    decodeRecord (recordToJson r) = some r := by
  show (match decodeBase (recordKvs r), decodeOpts1 (recordKvs r),
          decodeOpts2 (recordKvs r) with
        | some (text, tag, length, id),
          some (href, target, title, rel, ty, onclick, form, disabled),
          some (name, placeholder, value, required, src, alt, action,
            method) =>
          some { text := text, tag := tag, length := length, id := id,
                 href := href, target := target, title := title, rel := rel,
                 type := ty, onclick := onclick, form := form,
                 disabled := disabled, name := name,
                 placeholder := placeholder, value := value,
                 required := required, src := src, alt := alt,
                 action := action, method := method }
        | _, _, _ => none) = some r
  rw [decodeBase_eq, decodeOpts1_eq, decodeOpts2_eq]

theorem decodeRecords_roundtrip : ∀ results : List ElementRecord,
    decodeRecords (results.map recordToJson) = some results := by
  intro results
  induction results with
  | nil => rfl
  | cons r rs ih =>
    rw [List.map_cons]
    show (match decodeRecord (recordToJson r),
            decodeRecords (rs.map recordToJson) with
          | some x, some xs => some (x :: xs)
          | _, _ => none) = some (r :: rs)
    rw [decodeRecord_roundtrip r, ih]

theorem decodeMetadata_roundtrip : ∀ md : List (Str × Str),
    decodeMetadata (md.map (fun p => (p.1, Json.str p.2))) = some md := by
  intro md
  induction md with
  | nil => rfl
  | cons p rest ih =>
    obtain ⟨k, v⟩ := p
    rw [List.map_cons]
    show (match decodeMetadata (rest.map (fun p => (p.1, Json.str p.2))) with
          | some m => some ((k, v) :: m)
          | none => none) = some ((k, v) :: rest)
    rw [ih]

/-- C7: decoding the JSON renderer's output yields the input metadata
(key-for-key, in order), the source URL, the timestamp, the element
count `total_elements = |results|`, and the element sequence
field-for-field in the same order — the JSON export is a lossless,
order-preserving, round-trippable representation. -/
theorem json_render_roundtrip (results : List ElementRecord) (url : Str)
    (metadata : List (Str × Str)) (scrapedAt : Str) :
    decodeRender (jsonRender results url metadata scrapedAt) =
      some (metadata, url, scrapedAt, results.length, results) := by
  show (match decodeMetadata (metadata.map (fun p => (p.1, Json.str p.2))),
          decodeRecords (results.map recordToJson) with
        | some md, some els => some (md, url, scrapedAt, results.length, els)
        | _, _ => none) =
      some (metadata, url, scrapedAt, results.length, results)
  rw [decodeMetadata_roundtrip metadata, decodeRecords_roundtrip results]

/-! ## Transport errors -/

/-- C9: when the fetch raises a transport error, `scrape_website`
returns no tree, the error string and an empty metadata dict, and the
scrape flow halts with that error before selection — no records and no
export artifacts are produced. -/
theorem transport_error_halts (e : Str) (tags ids terms : List Str)
    (mode : Str) (minLength : Nat) :
    scrapeWebsite (.failure e) = (none, some e, []) ∧
    runScrape (.failure e) tags ids terms mode minLength = .error e ∧
    (∀ records, runScrape (.failure e) tags ids terms mode minLength ≠
      .ok records) := by
  refine ⟨rfl, rfl, ?_⟩
  intro records hcontr
  exact ScrapeOutcome.noConfusion hcontr

/-- Witness for C9 at a concrete input. -/
theorem transport_error_halts_witness :
    runScrape (.failure "timeout".data) [] [] [] "contains".data 0 =
      .error "timeout".data :=
  (transport_error_halts "timeout".data [] [] [] "contains".data 0).2.1
